import Mathlib

/-
Verification of the vtkReebGraph core (Filtering/vtkReebGraph.h) against its
natural-language specification.

The header file defines the pool-allocated node / arc / label store and the
structural macros of the streaming Reeb-graph builder as C preprocessor
macros and inline functions.  Those are embedded here shallowly:

* pool buffers become total functions from Int (the vtkIdType id) to record
  types; id 0 is the reserved null id, id -2 marks a cleared slot, exactly as
  in the source;
* double becomes the exact rational type (the claims under study are about
  the order structure and the algebraic shape of the formulas, not about
  rounding);
* each C macro becomes one Lean definition of the same name, performing the
  same field reads and writes in the same order (pointer writes become
  functional record updates threaded through the state);
* the C walks over intrusive linked lists become fuel-indexed walks returning
  Option; a None result corresponds to a walk that does not terminate within
  the given fuel.

Methods of vtkReebGraph whose bodies live in the (absent) implementation
file are modelled from the specification text; each such definition carries
a doc comment starting with: Modelled from the spec.
-/

namespace VTKReebGraph

/-- Node record of the pool store, field for field the struct vtkReebNode of
the header (VertexId, Value, ArcDownId, ArcUpId, IsFinalized, IsCritical). -/
structure vtkReebNode where
  VertexId : Int
  Value : ℚ
  ArcDownId : Int
  ArcUpId : Int
  IsFinalized : Bool
  IsCritical : Bool
deriving DecidableEq

/-- Arc record of the pool store, field for field the struct vtkReebArc of the
header.  NodeId0 is the lower endpoint, NodeId1 the upper endpoint; the
ArcUpId0/ArcDwId0 pair are the sibling links inside the up-arc list of the
lower node, ArcUpId1/ArcDwId1 the sibling links inside the down-arc list of
the upper node; LabelId0/LabelId1 delimit the horizontal label chain. -/
structure vtkReebArc where
  NodeId0 : Int
  ArcUpId0 : Int
  ArcDwId0 : Int
  NodeId1 : Int
  ArcUpId1 : Int
  ArcDwId1 : Int
  LabelId0 : Int
  LabelId1 : Int
deriving DecidableEq

/-- Label record of the pool store, field for field the struct vtkReebLabel of
the header.  HPrev/HNext form the horizontal chain (labels of one arc),
VPrev/VNext the vertical chain (labels of one tag across consecutive arcs).
The tag type vtkReebLabelTag is unsigned long long; tags stay small here so
Nat is the faithful carrier. -/
structure vtkReebLabel where
  ArcId : Int
  HPrev : Int
  HNext : Int
  label : Nat
  VPrev : Int
  VNext : Int
deriving DecidableEq

/-- All-zero node record: the result of memset(...,0,sizeof(vtkReebNode)). -/
def zeroNode : vtkReebNode :=
  { VertexId := 0, Value := 0, ArcDownId := 0, ArcUpId := 0,
    IsFinalized := false, IsCritical := false }

/-- All-zero arc record: the result of memset(...,0,sizeof(vtkReebArc)). -/
def zeroArc : vtkReebArc :=
  { NodeId0 := 0, ArcUpId0 := 0, ArcDwId0 := 0,
    NodeId1 := 0, ArcUpId1 := 0, ArcDwId1 := 0,
    LabelId0 := 0, LabelId1 := 0 }

/-- All-zero label record: the result of memset(...,0,sizeof(vtkReebLabel)). -/
def zeroLabel : vtkReebLabel :=
  { ArcId := 0, HPrev := 0, HNext := 0, label := 0, VPrev := 0, VNext := 0 }

/-- MainNodeTable of the class: buffer, live-slot count Number, free-list
head FreeZone.  The buffer is modelled as a total function from ids. -/
structure NodeTable where
  Buffer : Int → vtkReebNode
  Number : Int
  FreeZone : Int

/-- MainArcTable of the class. -/
structure ArcTable where
  Buffer : Int → vtkReebArc
  Number : Int
  FreeZone : Int

/-- MainLabelTable of the class. -/
structure LabelTable where
  Buffer : Int → vtkReebLabel
  Number : Int
  FreeZone : Int

/-- The mutable state of a vtkReebGraph instance that the macros under study
read and write: the three pools and the overall scalar range. -/
structure vtkReebGraph where
  MainNodeTable : NodeTable
  MainArcTable : ArcTable
  MainLabelTable : LabelTable
  MinimumScalarValue : ℚ
  MaximumScalarValue : ℚ

/-- Macro vtkReebGraphGetNode.  In C it yields the null pointer for id 0 and
the buffer slot otherwise; dereferencing the null pointer is undefined, so
every use at id 0 is excluded by hypotheses in the theorems below, and the
embedding simply reads the buffer. -/
def vtkReebGraphGetNode (rg : vtkReebGraph) (nodeId : Int) : vtkReebNode :=
  rg.MainNodeTable.Buffer nodeId

/-- Macro vtkReebGraphGetArc (same null-pointer convention as GetNode). -/
def vtkReebGraphGetArc (rg : vtkReebGraph) (arcId : Int) : vtkReebArc :=
  rg.MainArcTable.Buffer arcId

/-- Macro vtkReebGraphGetLabel (same null-pointer convention as GetNode). -/
def vtkReebGraphGetLabel (rg : vtkReebGraph) (labelId : Int) : vtkReebLabel :=
  rg.MainLabelTable.Buffer labelId

/-- Write one node slot of the pool buffer (a pointer store in C). -/
def writeNode (rg : vtkReebGraph) (i : Int) (nd : vtkReebNode) : vtkReebGraph :=
  { rg with MainNodeTable :=
      { rg.MainNodeTable with Buffer := Function.update rg.MainNodeTable.Buffer i nd } }

/-- Write one arc slot of the pool buffer. -/
def writeArc (rg : vtkReebGraph) (i : Int) (a : vtkReebArc) : vtkReebGraph :=
  { rg with MainArcTable :=
      { rg.MainArcTable with Buffer := Function.update rg.MainArcTable.Buffer i a } }

/-- Write one label slot of the pool buffer. -/
def writeLabel (rg : vtkReebGraph) (i : Int) (l : vtkReebLabel) : vtkReebGraph :=
  { rg with MainLabelTable :=
      { rg.MainLabelTable with Buffer := Function.update rg.MainLabelTable.Buffer i l } }

@[simp]
theorem getNode_writeNode (rg : vtkReebGraph) (i : Int) (nd : vtkReebNode) (j : Int) :
    vtkReebGraphGetNode (writeNode rg i nd) j =
      if j = i then nd else vtkReebGraphGetNode rg j := by
  simp [vtkReebGraphGetNode, writeNode, Function.update_apply]

@[simp]
theorem getArc_writeArc (rg : vtkReebGraph) (i : Int) (a : vtkReebArc) (j : Int) :
    vtkReebGraphGetArc (writeArc rg i a) j =
      if j = i then a else vtkReebGraphGetArc rg j := by
  simp [vtkReebGraphGetArc, writeArc, Function.update_apply]

@[simp]
theorem getLabel_writeLabel (rg : vtkReebGraph) (i : Int) (l : vtkReebLabel) (j : Int) :
    vtkReebGraphGetLabel (writeLabel rg i l) j =
      if j = i then l else vtkReebGraphGetLabel rg j := by
  simp [vtkReebGraphGetLabel, writeLabel, Function.update_apply]

/-! ## The order used by AddArc (claim C1) -/

/-- Macro vtkReebGraphIsSmaller of the header, line for line:
(node0->Value < node1->Value) || (node0->Value == node1->Value && nodeId0 < nodeId1).
Note that the scalar tie is broken by the pool node ids nodeId0 and nodeId1;
the comparison by VertexId appears only in a commented-out line of the
source. -/
def vtkReebGraphIsSmaller (nodeId0 nodeId1 : Int) (node0 node1 : vtkReebNode) : Prop :=
  node0.Value < node1.Value ∨ (node0.Value = node1.Value ∧ nodeId0 < nodeId1)

instance (nodeId0 nodeId1 : Int) (node0 node1 : vtkReebNode) :
    Decidable (vtkReebGraphIsSmaller nodeId0 nodeId1 node0 node1) := by
  unfold vtkReebGraphIsSmaller; infer_instance

/-- Macro vtkReebGraphIsSmaller2: IsSmaller applied to the two buffer slots. -/
def vtkReebGraphIsSmaller2 (rg : vtkReebGraph) (nodeId0 nodeId1 : Int) : Prop :=
  vtkReebGraphIsSmaller nodeId0 nodeId1
    (vtkReebGraphGetNode rg nodeId0) (vtkReebGraphGetNode rg nodeId1)

instance (rg : vtkReebGraph) (nodeId0 nodeId1 : Int) :
    Decidable (vtkReebGraphIsSmaller2 rg nodeId0 nodeId1) := by
  unfold vtkReebGraphIsSmaller2; infer_instance

/-- Inline method AddArc of the header.  The body swaps the two ids unless
IsSmaller2 already holds and then hands the ordered pair to AddPath; AddPath
itself lives in the implementation file, so the embedding returns the ordered
pair of node ids exactly as it is passed to AddPath. -/
def AddArc (rg : vtkReebGraph) (nodeId0 nodeId1 : Int) : Int × Int :=
  if ¬ vtkReebGraphIsSmaller2 rg nodeId0 nodeId1 then (nodeId1, nodeId0)
  else (nodeId0, nodeId1)

/-- The order stated by the spec sentence of claim C1:
less((v,vid),(w,wid)) with vid the originating mesh vertex id. -/
def specLess (v : ℚ) (vid : Int) (w : ℚ) (wid : Int) : Prop :=
  v < w ∨ (v = w ∧ vid < wid)

instance (v : ℚ) (vid : Int) (w : ℚ) (wid : Int) :
    Decidable (specLess v vid w wid) := by
  unfold specLess; infer_instance

/-- A concrete graph state in which the pool node ids and the mesh vertex ids
are ordered oppositely: node 1 carries mesh vertex 5, node 2 carries mesh
vertex 3, both with scalar value 2.  Such a state arises whenever mesh
vertices are streamed out of vertex-id order. -/
def c1Graph : vtkReebGraph :=
  { MainNodeTable :=
      { Buffer := fun i =>
          if i = 1 then
            { VertexId := 5, Value := 2, ArcDownId := 0, ArcUpId := 0,
              IsFinalized := true, IsCritical := false }
          else if i = 2 then
            { VertexId := 3, Value := 2, ArcDownId := 0, ArcUpId := 0,
              IsFinalized := true, IsCritical := false }
          else zeroNode,
        Number := 2, FreeZone := 3 },
    MainArcTable := { Buffer := fun _ => zeroArc, Number := 0, FreeZone := 1 },
    MainLabelTable := { Buffer := fun _ => zeroLabel, Number := 0, FreeZone := 1 },
    MinimumScalarValue := 2, MaximumScalarValue := 2 }

/-- Claim C1, counterexample: AddArc on nodes 1 and 2 of c1Graph keeps the
order (1, 2) because the scalar tie is broken by the node ids, yet the spec
order on (Value, VertexId) does not hold between the resulting endpoints:
the lower endpoint carries vertex id 5 and the upper endpoint vertex id 3.
So the claimed invariant less(n0(a), n1(a)) with vid the mesh vertex id is
violated by the very arc AddArc creates. -/
theorem c1_counterexample :
    ¬ specLess (vtkReebGraphGetNode c1Graph (AddArc c1Graph 1 2).1).Value
        (vtkReebGraphGetNode c1Graph (AddArc c1Graph 1 2).1).VertexId
        (vtkReebGraphGetNode c1Graph (AddArc c1Graph 1 2).2).Value
        (vtkReebGraphGetNode c1Graph (AddArc c1Graph 1 2).2).VertexId := by
  decide

/-- Claim C1 as amended: AddArc orders its two endpoint nodes by the order
of vtkReebGraphIsSmaller, which compares scalar values and breaks scalar
ties by the pool node id (not by the mesh vertex id); for any two distinct
node ids the pair handed to AddPath satisfies that order. -/
theorem c1_amended (rg : vtkReebGraph) (nodeId0 nodeId1 : Int)
    (h : nodeId0 ≠ nodeId1) :
    vtkReebGraphIsSmaller2 rg (AddArc rg nodeId0 nodeId1).1
      (AddArc rg nodeId0 nodeId1).2 := by
  have key : ∀ a b : Int, a ≠ b → ¬ vtkReebGraphIsSmaller2 rg a b →
      vtkReebGraphIsSmaller2 rg b a := by
    intro a b hab hno
    simp only [vtkReebGraphIsSmaller2, vtkReebGraphIsSmaller] at hno ⊢
    push_neg at hno
    rcases lt_trichotomy (vtkReebGraphGetNode rg b).Value
        (vtkReebGraphGetNode rg a).Value with hv | hv | hv
    · exact Or.inl hv
    · right
      refine ⟨hv, ?_⟩
      have h2 := hno.2 hv.symm
      omega
    · exact absurd hv (not_lt.mpr hno.1)
  unfold AddArc
  by_cases hs : vtkReebGraphIsSmaller2 rg nodeId0 nodeId1
  · rw [if_neg (not_not.mpr hs)]
    exact hs
  · rw [if_pos hs]
    exact key nodeId0 nodeId1 h hs

/-- Claim C1 amended, witness: a concrete instantiation of c1_amended. -/
theorem c1_amended_witness :
    vtkReebGraphIsSmaller2 c1Graph (AddArc c1Graph 1 2).1 (AddArc c1Graph 1 2).2 :=
  c1_amended c1Graph 1 2 (by decide)

/-! ## Arc persistence (claims C4 and C10) -/

/-- Macro vtkReebGraphGetArcPersistence of the header:
(GetNode(rg, a->NodeId1)->Value - GetNode(rg, a->NodeId0)->Value)
 / (MaximumScalarValue - MinimumScalarValue).
There is no guard on the denominator. -/
def vtkReebGraphGetArcPersistence (rg : vtkReebGraph) (a : vtkReebArc) : ℚ :=
  ((vtkReebGraphGetNode rg a.NodeId1).Value - (vtkReebGraphGetNode rg a.NodeId0).Value)
    / (rg.MaximumScalarValue - rg.MinimumScalarValue)

/-- The formula stated by the spec for the default (metric-free) persistence:
scalar difference of the upper and lower endpoint, normalized by the overall
scalar span. -/
def specNormalizedPersistence (upperValue lowerValue maxValue minValue : ℚ) : ℚ :=
  (upperValue - lowerValue) / (maxValue - minValue)

/-- Claim C4: for every arc, the default persistence computed by the code is
exactly the spec formula (value(a.n1) - value(a.n0)) / (max_value - min_value),
where n1 is the upper endpoint NodeId1 and n0 the lower endpoint NodeId0. -/
theorem c4_arc_persistence (rg : vtkReebGraph) (a : vtkReebArc) :
    vtkReebGraphGetArcPersistence rg a =
      specNormalizedPersistence
        (vtkReebGraphGetNode rg a.NodeId1).Value
        (vtkReebGraphGetNode rg a.NodeId0).Value
        rg.MaximumScalarValue rg.MinimumScalarValue := by
  rfl

/-- Claim C10: when the scalar range endpoints are both attained among a set
of live nodes all of which carry one and the same scalar value, the
denominator of the persistence macro is zero, so evaluating the persistence
of any arc divides by zero (the macro has no guard). -/
theorem c10_constant_field_divides_by_zero (rg : vtkReebGraph)
    (live : List Int) (c : ℚ)
    (hmin : ∃ i ∈ live, rg.MinimumScalarValue = (vtkReebGraphGetNode rg i).Value)
    (hmax : ∃ i ∈ live, rg.MaximumScalarValue = (vtkReebGraphGetNode rg i).Value)
    (hconst : ∀ i ∈ live, (vtkReebGraphGetNode rg i).Value = c) :
    rg.MaximumScalarValue - rg.MinimumScalarValue = 0 ∧
      ∀ a : vtkReebArc,
        vtkReebGraphGetArcPersistence rg a =
          ((vtkReebGraphGetNode rg a.NodeId1).Value
            - (vtkReebGraphGetNode rg a.NodeId0).Value) / 0 := by
  obtain ⟨i, hi, hiv⟩ := hmin
  obtain ⟨j, hj, hjv⟩ := hmax
  have hz : rg.MaximumScalarValue - rg.MinimumScalarValue = 0 := by
    rw [hiv, hjv, hconst i hi, hconst j hj]
    ring
  refine ⟨hz, fun a => ?_⟩
  rw [vtkReebGraphGetArcPersistence, hz]

/-- A one-node graph with a constant scalar field: mesh vertex 7 with value 5
streamed alone; the scalar range collapses to the point 5. -/
def c10Graph : vtkReebGraph :=
  { MainNodeTable :=
      { Buffer := fun i =>
          if i = 1 then
            { VertexId := 7, Value := 5, ArcDownId := 0, ArcUpId := 0,
              IsFinalized := true, IsCritical := true }
          else zeroNode,
        Number := 1, FreeZone := 2 },
    MainArcTable := { Buffer := fun _ => zeroArc, Number := 0, FreeZone := 1 },
    MainLabelTable := { Buffer := fun _ => zeroLabel, Number := 0, FreeZone := 1 },
    MinimumScalarValue := 5, MaximumScalarValue := 5 }

/-- Claim C10, witness: c10_constant_field_divides_by_zero applied to the
one-node constant-field graph. -/
theorem c10_witness :
    c10Graph.MaximumScalarValue - c10Graph.MinimumScalarValue = 0 ∧
      ∀ a : vtkReebArc,
        vtkReebGraphGetArcPersistence c10Graph a =
          ((vtkReebGraphGetNode c10Graph a.NodeId1).Value
            - (vtkReebGraphGetNode c10Graph a.NodeId0).Value) / 0 :=
  c10_constant_field_divides_by_zero c10Graph [1] 5
    (by refine ⟨1, by decide, by decide⟩)
    (by refine ⟨1, by decide, by decide⟩)
    (by intro i hi; simp only [List.mem_singleton] at hi; subst hi; decide)

/-! ## The ReebPath comparison (claim C3) -/

/-- Struct vtkReebPath of the header: a candidate retraction path, with its
simplification value (persistence), its arc count, and its arc and node
tables (pointers into id arrays, modelled as total functions). -/
structure vtkReebPath where
  SimplificationValue : ℚ
  ArcNumber : Int
  ArcTable : Int → Int
  NodeNumber : Int
  NodeTable : Int → Int

/-- The comparison operator of struct vtkReebPath, line for line the body of
its member operator<: the negation of the disjunction
(SimplificationValue < E.SimplificationValue) or
(equal SimplificationValue and ArcNumber < E.ArcNumber) or
(equal SimplificationValue, equal ArcNumber and
 NodeTable[NodeNumber-1] < E.NodeTable[E.NodeNumber-1]). -/
def vtkReebPathLess (x E : vtkReebPath) : Prop :=
  ¬ (x.SimplificationValue < E.SimplificationValue ∨
     (x.SimplificationValue = E.SimplificationValue ∧ x.ArcNumber < E.ArcNumber) ∨
     (x.SimplificationValue = E.SimplificationValue ∧ x.ArcNumber = E.ArcNumber ∧
       x.NodeTable (x.NodeNumber - 1) < E.NodeTable (E.NodeNumber - 1)))

instance (x E : vtkReebPath) : Decidable (vtkReebPathLess x E) := by
  unfold vtkReebPathLess; infer_instance

/-- The comparison key the spec describes: persistence first, then arc
count, then the last entry of the node table (the largest node id of the
monotone path). -/
def pathKey (x : vtkReebPath) : ℚ × Int × Int :=
  (x.SimplificationValue, x.ArcNumber, x.NodeTable (x.NodeNumber - 1))

/-- The strict lexicographic order on the key of the spec: smaller
persistence wins, then fewer arcs, then smaller largest node id. -/
def pathLexLt (x E : vtkReebPath) : Prop :=
  x.SimplificationValue < E.SimplificationValue ∨
    (x.SimplificationValue = E.SimplificationValue ∧
      (x.ArcNumber < E.ArcNumber ∨
        (x.ArcNumber = E.ArcNumber ∧
          x.NodeTable (x.NodeNumber - 1) < E.NodeTable (E.NodeNumber - 1))))

/-- A concrete one-arc candidate path. -/
def c3Path : vtkReebPath :=
  { SimplificationValue := 0, ArcNumber := 1, ArcTable := fun _ => 1,
    NodeNumber := 2, NodeTable := fun _ => 3 }

/-- Claim C3, counterexample: the operator is not irreflexive, hence not a
strict ordering: comparing the concrete candidate path with itself yields
true, because the member operator returns the negation of the strict
lexicographic comparison. -/
theorem c3_counterexample : vtkReebPathLess c3Path c3Path := by
  decide

/-- Helper trichotomy for the three-component lexicographic comparison. -/
theorem lexTriple_total_asymm (a b : ℚ) (m n p q : Int)
    (hne : ¬ (a = b ∧ m = n ∧ p = q)) :
    (a < b ∨ (a = b ∧ (m < n ∨ (m = n ∧ p < q)))) ↔
      ¬ (b < a ∨ (b = a ∧ (n < m ∨ (n = m ∧ q < p)))) := by
  rcases lt_trichotomy a b with h | h | h
  · simp [h, lt_asymm h, h.ne']
  · subst h
    simp only [lt_irrefl, false_or, eq_self_iff_true, true_and] at hne ⊢
    omega
  · simp [h, lt_asymm h, h.ne, h.ne']

/-- Claim C3 as amended: the member operator< of vtkReebPath is the negation
of the strict lexicographic comparison by (persistence, arc count, largest
node id).  Consequently it is reflexive (not irreflexive) — this is the
shape a C++ max-priority-queue needs to surface the candidate of smallest
persistence, then fewest arcs, then smallest largest node id.  The
underlying lexicographic key comparison itself is deterministic: between two
candidates with distinct keys exactly one direction of pathLexLt holds. -/
theorem c3_amended :
    (∀ x E : vtkReebPath, vtkReebPathLess x E ↔ ¬ pathLexLt x E) ∧
    (∀ x : vtkReebPath, vtkReebPathLess x x) ∧
    (∀ x E : vtkReebPath, pathKey x ≠ pathKey E → (pathLexLt x E ↔ ¬ pathLexLt E x)) := by
  refine ⟨?_, ?_, ?_⟩
  · intro x E
    unfold vtkReebPathLess pathLexLt
    tauto
  · intro x
    unfold vtkReebPathLess
    simp [lt_irrefl]
  · intro x E hne
    simp only [pathKey, ne_eq, Prod.mk.injEq, not_and] at hne
    unfold pathLexLt
    apply lexTriple_total_asymm
    tauto

/-- Claim C3 amended, witness: instantiation at two concrete candidate paths
with distinct keys. -/
theorem c3_amended_witness :
    (vtkReebPathLess c3Path c3Path ↔ ¬ pathLexLt c3Path c3Path) ∧
      vtkReebPathLess c3Path c3Path ∧
      (pathLexLt c3Path
          { SimplificationValue := 1, ArcNumber := 1, ArcTable := fun _ => 1,
            NodeNumber := 2, NodeTable := fun _ => 3 } ↔
        ¬ pathLexLt
          { SimplificationValue := 1, ArcNumber := 1, ArcTable := fun _ => 1,
            NodeNumber := 2, NodeTable := fun _ => 3 } c3Path) :=
  ⟨c3_amended.1 c3Path c3Path, c3_amended.2.1 c3Path,
    c3_amended.2.2 c3Path
      { SimplificationValue := 1, ArcNumber := 1, ArcTable := fun _ => 1,
        NodeNumber := 2, NodeTable := fun _ => 3 }
      (by intro hk; simp only [pathKey, Prod.mk.injEq] at hk; exact absurd hk.1 (by decide))⟩

/-! ## Pool allocation and recycling (claim C9) -/

/-- Macro vtkReebGraphClearNode: mark node N as cleared by setting ArcUpId
to -2. -/
def vtkReebGraphClearNode (rg : vtkReebGraph) (N : Int) : vtkReebGraph :=
  writeNode rg N { vtkReebGraphGetNode rg N with ArcUpId := -2 }

/-- Macro vtkReebGraphClearArc: mark arc A as cleared by setting LabelId1
to -2. -/
def vtkReebGraphClearArc (rg : vtkReebGraph) (A : Int) : vtkReebGraph :=
  writeArc rg A { vtkReebGraphGetArc rg A with LabelId1 := -2 }

/-- Macro vtkReebGraphClearLabel: mark label L as cleared by setting HNext
to -2. -/
def vtkReebGraphClearLabel (rg : vtkReebGraph) (L : Int) : vtkReebGraph :=
  writeLabel rg L { vtkReebGraphGetLabel rg L with HNext := -2 }

/-- Macro vtkReebGraphIsNodeCleared. -/
def vtkReebGraphIsNodeCleared (rg : vtkReebGraph) (N : Int) : Prop :=
  (vtkReebGraphGetNode rg N).ArcUpId = -2

/-- Macro vtkReebGraphIsArcCleared. -/
def vtkReebGraphIsArcCleared (rg : vtkReebGraph) (A : Int) : Prop :=
  (vtkReebGraphGetArc rg A).LabelId1 = -2

/-- Macro vtkReebGraphIsLabelCleared. -/
def vtkReebGraphIsLabelCleared (rg : vtkReebGraph) (L : Int) : Prop :=
  (vtkReebGraphGetLabel rg L).HNext = -2

instance (rg : vtkReebGraph) (N : Int) : Decidable (vtkReebGraphIsNodeCleared rg N) := by
  unfold vtkReebGraphIsNodeCleared; infer_instance

instance (rg : vtkReebGraph) (A : Int) : Decidable (vtkReebGraphIsArcCleared rg A) := by
  unfold vtkReebGraphIsArcCleared; infer_instance

instance (rg : vtkReebGraph) (L : Int) : Decidable (vtkReebGraphIsLabelCleared rg L) := by
  unfold vtkReebGraphIsLabelCleared; infer_instance

/-- Macro vtkReebGraphNewNode: pop the free-list head, advance FreeZone along
the ArcDownId free link, increment Number, zero the slot, and return its id. -/
def vtkReebGraphNewNode (rg : vtkReebGraph) : Int × vtkReebGraph :=
  let N := rg.MainNodeTable.FreeZone
  let rg1 := { rg with MainNodeTable :=
    { rg.MainNodeTable with
        FreeZone := (vtkReebGraphGetNode rg N).ArcDownId,
        Number := rg.MainNodeTable.Number + 1 } }
  (N, writeNode rg1 N zeroNode)

/-- Macro vtkReebGraphNewArc: as NewNode, with LabelId0 as the free link. -/
def vtkReebGraphNewArc (rg : vtkReebGraph) : Int × vtkReebGraph :=
  let A := rg.MainArcTable.FreeZone
  let rg1 := { rg with MainArcTable :=
    { rg.MainArcTable with
        FreeZone := (vtkReebGraphGetArc rg A).LabelId0,
        Number := rg.MainArcTable.Number + 1 } }
  (A, writeArc rg1 A zeroArc)

/-- Macro vtkReebGraphNewLabel: as NewNode, with ArcId as the free link. -/
def vtkReebGraphNewLabel (rg : vtkReebGraph) : Int × vtkReebGraph :=
  let L := rg.MainLabelTable.FreeZone
  let rg1 := { rg with MainLabelTable :=
    { rg.MainLabelTable with
        FreeZone := (vtkReebGraphGetLabel rg L).ArcId,
        Number := rg.MainLabelTable.Number + 1 } }
  (L, writeLabel rg1 L zeroLabel)

/-- Macro vtkReebGraphDeleteNode: clear the slot, thread it onto the free
list through ArcDownId, point FreeZone at it, decrement Number. -/
def vtkReebGraphDeleteNode (rg : vtkReebGraph) (N : Int) : vtkReebGraph :=
  let rg1 := vtkReebGraphClearNode rg N
  let rg2 := writeNode rg1 N
    { vtkReebGraphGetNode rg1 N with ArcDownId := rg1.MainNodeTable.FreeZone }
  { rg2 with MainNodeTable :=
      { rg2.MainNodeTable with FreeZone := N, Number := rg2.MainNodeTable.Number - 1 } }

/-- Macro vtkReebGraphDeleteArc: clear the slot, thread it onto the free list
through LabelId0, point FreeZone at it, decrement Number. -/
def vtkReebGraphDeleteArc (rg : vtkReebGraph) (A : Int) : vtkReebGraph :=
  let rg1 := vtkReebGraphClearArc rg A
  let rg2 := writeArc rg1 A
    { vtkReebGraphGetArc rg1 A with LabelId0 := rg1.MainArcTable.FreeZone }
  { rg2 with MainArcTable :=
      { rg2.MainArcTable with FreeZone := A, Number := rg2.MainArcTable.Number - 1 } }

/-- Macro vtkReebGraphDeleteLabel: clear the slot, thread it onto the free
list through ArcId, point FreeZone at it, decrement Number. -/
def vtkReebGraphDeleteLabel (rg : vtkReebGraph) (L : Int) : vtkReebGraph :=
  let rg1 := vtkReebGraphClearLabel rg L
  let rg2 := writeLabel rg1 L
    { vtkReebGraphGetLabel rg1 L with ArcId := rg1.MainLabelTable.FreeZone }
  { rg2 with MainLabelTable :=
      { rg2.MainLabelTable with FreeZone := L, Number := rg2.MainLabelTable.Number - 1 } }

/-- Claim C9: in each of the three pools, deleting a slot and then
immediately allocating returns that same slot id (the free list is LIFO),
the delete first decrements the live count Number and the allocation
restores it, the free-list head FreeZone is restored to its prior value, and
the reallocated slot comes back fully zero-initialized. -/
theorem c9_pool_delete_then_new (rg : vtkReebGraph) (N A L : Int) :
    ((vtkReebGraphNewNode (vtkReebGraphDeleteNode rg N)).1 = N ∧
      (vtkReebGraphDeleteNode rg N).MainNodeTable.Number = rg.MainNodeTable.Number - 1 ∧
      (vtkReebGraphNewNode (vtkReebGraphDeleteNode rg N)).2.MainNodeTable.Number
        = rg.MainNodeTable.Number ∧
      (vtkReebGraphNewNode (vtkReebGraphDeleteNode rg N)).2.MainNodeTable.FreeZone
        = rg.MainNodeTable.FreeZone ∧
      vtkReebGraphGetNode (vtkReebGraphNewNode (vtkReebGraphDeleteNode rg N)).2 N
        = zeroNode) ∧
    ((vtkReebGraphNewArc (vtkReebGraphDeleteArc rg A)).1 = A ∧
      (vtkReebGraphDeleteArc rg A).MainArcTable.Number = rg.MainArcTable.Number - 1 ∧
      (vtkReebGraphNewArc (vtkReebGraphDeleteArc rg A)).2.MainArcTable.Number
        = rg.MainArcTable.Number ∧
      (vtkReebGraphNewArc (vtkReebGraphDeleteArc rg A)).2.MainArcTable.FreeZone
        = rg.MainArcTable.FreeZone ∧
      vtkReebGraphGetArc (vtkReebGraphNewArc (vtkReebGraphDeleteArc rg A)).2 A
        = zeroArc) ∧
    ((vtkReebGraphNewLabel (vtkReebGraphDeleteLabel rg L)).1 = L ∧
      (vtkReebGraphDeleteLabel rg L).MainLabelTable.Number = rg.MainLabelTable.Number - 1 ∧
      (vtkReebGraphNewLabel (vtkReebGraphDeleteLabel rg L)).2.MainLabelTable.Number
        = rg.MainLabelTable.Number ∧
      (vtkReebGraphNewLabel (vtkReebGraphDeleteLabel rg L)).2.MainLabelTable.FreeZone
        = rg.MainLabelTable.FreeZone ∧
      vtkReebGraphGetLabel (vtkReebGraphNewLabel (vtkReebGraphDeleteLabel rg L)).2 L
        = zeroLabel) := by
  refine ⟨⟨?_, ?_, ?_, ?_, ?_⟩, ⟨?_, ?_, ?_, ?_, ?_⟩, ⟨?_, ?_, ?_, ?_, ?_⟩⟩ <;>
    simp [vtkReebGraphNewNode, vtkReebGraphDeleteNode, vtkReebGraphClearNode,
      vtkReebGraphNewArc, vtkReebGraphDeleteArc, vtkReebGraphClearArc,
      vtkReebGraphNewLabel, vtkReebGraphDeleteLabel, vtkReebGraphClearLabel,
      vtkReebGraphGetNode, vtkReebGraphGetArc, vtkReebGraphGetLabel,
      writeNode, writeArc, writeLabel, Function.update_apply]

/-! ## Regularity and degree (claim C8) -/

/-- The walk of macro vtkReebGraphGetDownDegree: starting at an arc id,
follow the ArcDwId1 sibling links of the down-arc list until reaching the
null id 0, collecting the visited arc ids.  Fuel-indexed; None means the
walk does not reach 0 within the fuel (an ill-formed list). -/
def downArcWalk (rg : vtkReebGraph) : Int → Nat → Option (List Int)
  | _, 0 => none
  | a, fuel + 1 =>
    if a = 0 then some [] else
      match downArcWalk rg (vtkReebGraphGetArc rg a).ArcDwId1 fuel with
      | some l => some (a :: l)
      | none => none

/-- The walk of macro vtkReebGraphGetUpDegree: as downArcWalk but along the
ArcDwId0 sibling links of the up-arc list. -/
def upArcWalk (rg : vtkReebGraph) : Int → Nat → Option (List Int)
  | _, 0 => none
  | a, fuel + 1 =>
    if a = 0 then some [] else
      match upArcWalk rg (vtkReebGraphGetArc rg a).ArcDwId0 fuel with
      | some l => some (a :: l)
      | none => none

/-- Macro vtkReebGraphGetDownDegree: the length of the walk over the
down-arc list of node N, starting at its ArcDownId head. -/
def vtkReebGraphGetDownDegree (rg : vtkReebGraph) (N : Int) (fuel : Nat) : Option Nat :=
  (downArcWalk rg (vtkReebGraphGetNode rg N).ArcDownId fuel).map List.length

/-- Macro vtkReebGraphGetUpDegree: the length of the walk over the up-arc
list of node N, starting at its ArcUpId head. -/
def vtkReebGraphGetUpDegree (rg : vtkReebGraph) (N : Int) (fuel : Nat) : Option Nat :=
  (upArcWalk rg (vtkReebGraphGetNode rg N).ArcUpId fuel).map List.length

/-- Macro vtkReebGraphIsRegular, line for line: the node is not critical,
its down-arc head exists and has no down-sibling, and its up-arc head exists
and has no up-sibling. -/
def vtkReebGraphIsRegular (rg : vtkReebGraph) (n : vtkReebNode) : Prop :=
  n.IsCritical = false ∧
  (n.ArcDownId ≠ 0 ∧ (vtkReebGraphGetArc rg n.ArcDownId).ArcDwId1 = 0 ∧
   n.ArcUpId ≠ 0 ∧ (vtkReebGraphGetArc rg n.ArcUpId).ArcDwId0 = 0)

instance (rg : vtkReebGraph) (n : vtkReebNode) :
    Decidable (vtkReebGraphIsRegular rg n) := by
  unfold vtkReebGraphIsRegular; infer_instance

/-- Unfolding of one step of downArcWalk in Option.map form. -/
theorem downArcWalk_succ (rg : vtkReebGraph) (a : Int) (fuel : Nat) :
    downArcWalk rg a (fuel + 1) =
      if a = 0 then some [] else
        (downArcWalk rg (vtkReebGraphGetArc rg a).ArcDwId1 fuel).map
          (fun l => a :: l) := by
  by_cases ha : a = 0
  · simp [downArcWalk, ha]
  · rw [downArcWalk, if_neg ha, if_neg ha]
    cases downArcWalk rg (vtkReebGraphGetArc rg a).ArcDwId1 fuel <;> rfl

/-- Unfolding of one step of upArcWalk in Option.map form. -/
theorem upArcWalk_succ (rg : vtkReebGraph) (a : Int) (fuel : Nat) :
    upArcWalk rg a (fuel + 1) =
      if a = 0 then some [] else
        (upArcWalk rg (vtkReebGraphGetArc rg a).ArcDwId0 fuel).map
          (fun l => a :: l) := by
  by_cases ha : a = 0
  · simp [upArcWalk, ha]
  · rw [upArcWalk, if_neg ha, if_neg ha]
    cases upArcWalk rg (vtkReebGraphGetArc rg a).ArcDwId0 fuel <;> rfl

/-- A terminated down-list walk is empty exactly when it started at the null
id. -/
theorem downArcWalk_nil_iff (rg : vtkReebGraph) (a : Int) (fuel : Nat)
    (l : List Int) (h : downArcWalk rg a fuel = some l) : (l = [] ↔ a = 0) := by
  cases fuel with
  | zero => simp [downArcWalk] at h
  | succ f =>
    rw [downArcWalk_succ] at h
    by_cases ha : a = 0
    · rw [if_pos ha] at h
      simp at h
      subst h
      simp [ha]
    · rw [if_neg ha] at h
      rcases hrec : downArcWalk rg (vtkReebGraphGetArc rg a).ArcDwId1 f with _ | l2
      · rw [hrec] at h; simp at h
      · rw [hrec] at h
        simp at h
        subst h
        simp [ha]

/-- A terminated up-list walk is empty exactly when it started at the null
id. -/
theorem upArcWalk_nil_iff (rg : vtkReebGraph) (a : Int) (fuel : Nat)
    (l : List Int) (h : upArcWalk rg a fuel = some l) : (l = [] ↔ a = 0) := by
  cases fuel with
  | zero => simp [upArcWalk] at h
  | succ f =>
    rw [upArcWalk_succ] at h
    by_cases ha : a = 0
    · rw [if_pos ha] at h
      simp at h
      subst h
      simp [ha]
    · rw [if_neg ha] at h
      rcases hrec : upArcWalk rg (vtkReebGraphGetArc rg a).ArcDwId0 f with _ | l2
      · rw [hrec] at h; simp at h
      · rw [hrec] at h
        simp at h
        subst h
        simp [ha]

/-- A down-list walk has length one exactly when the head arc exists and its
down-sibling link is null. -/
theorem downArcWalk_length_one (rg : vtkReebGraph) (a : Int) (fuel : Nat)
    (l : List Int) (h : downArcWalk rg a fuel = some l) :
    (l.length = 1 ↔ a ≠ 0 ∧ (vtkReebGraphGetArc rg a).ArcDwId1 = 0) := by
  cases fuel with
  | zero => simp [downArcWalk] at h
  | succ f =>
    rw [downArcWalk_succ] at h
    by_cases ha : a = 0
    · rw [if_pos ha] at h
      simp at h
      subst h
      simp [ha]
    · rw [if_neg ha] at h
      rcases hrec : downArcWalk rg (vtkReebGraphGetArc rg a).ArcDwId1 f with _ | l2
      · rw [hrec] at h; simp at h
      · rw [hrec] at h
        simp at h
        subst h
        have hnil := downArcWalk_nil_iff rg _ f l2 hrec
        constructor
        · intro hlen
          have hl2 : l2 = [] := List.length_eq_zero.mp (by simpa using hlen)
          exact ⟨ha, hnil.mp hl2⟩
        · rintro ⟨-, hz⟩
          have hl2 : l2 = [] := hnil.mpr hz
          subst hl2
          simp

/-- An up-list walk has length one exactly when the head arc exists and its
up-sibling link is null. -/
theorem upArcWalk_length_one (rg : vtkReebGraph) (a : Int) (fuel : Nat)
    (l : List Int) (h : upArcWalk rg a fuel = some l) :
    (l.length = 1 ↔ a ≠ 0 ∧ (vtkReebGraphGetArc rg a).ArcDwId0 = 0) := by
  cases fuel with
  | zero => simp [upArcWalk] at h
  | succ f =>
    rw [upArcWalk_succ] at h
    by_cases ha : a = 0
    · rw [if_pos ha] at h
      simp at h
      subst h
      simp [ha]
    · rw [if_neg ha] at h
      rcases hrec : upArcWalk rg (vtkReebGraphGetArc rg a).ArcDwId0 f with _ | l2
      · rw [hrec] at h; simp at h
      · rw [hrec] at h
        simp at h
        subst h
        have hnil := upArcWalk_nil_iff rg _ f l2 hrec
        constructor
        · intro hlen
          have hl2 : l2 = [] := List.length_eq_zero.mp (by simpa using hlen)
          exact ⟨ha, hnil.mp hl2⟩
        · rintro ⟨-, hz⟩
          have hl2 : l2 = [] := hnil.mpr hz
          subst hl2
          simp

/-- Claim C8: for a node whose up and down arc lists are well-formed (their
walks terminate within some fuel), the regularity test of the macro is
equivalent to the definitional test: the node is not critical and the
down-degree and up-degree obtained by walking the two lists both equal 1. -/
theorem c8_is_regular_iff_degrees (rg : vtkReebGraph) (N : Int)
    (fd fu : Nat) (d u : Nat)
    (hd : vtkReebGraphGetDownDegree rg N fd = some d)
    (hu : vtkReebGraphGetUpDegree rg N fu = some u) :
    vtkReebGraphIsRegular rg (vtkReebGraphGetNode rg N) ↔
      ((vtkReebGraphGetNode rg N).IsCritical = false ∧ d = 1 ∧ u = 1) := by
  unfold vtkReebGraphGetDownDegree at hd
  unfold vtkReebGraphGetUpDegree at hu
  rcases hld : downArcWalk rg (vtkReebGraphGetNode rg N).ArcDownId fd with _ | ld
  · rw [hld] at hd; exact absurd hd (by simp)
  rcases hlu : upArcWalk rg (vtkReebGraphGetNode rg N).ArcUpId fu with _ | lu
  · rw [hlu] at hu; exact absurd hu (by simp)
  rw [hld] at hd
  rw [hlu] at hu
  simp at hd hu
  subst hd
  subst hu
  have h1 := downArcWalk_length_one rg _ _ _ hld
  have h2 := upArcWalk_length_one rg _ _ _ hlu
  unfold vtkReebGraphIsRegular
  tauto

/-- A concrete regular interior node: node 2 sits between nodes 1 and 3 with
exactly one down arc (arc 1) and one up arc (arc 2). -/
def c8Graph : vtkReebGraph :=
  { MainNodeTable :=
      { Buffer := fun i =>
          if i = 1 then
            { VertexId := 10, Value := 0, ArcDownId := 0, ArcUpId := 1,
              IsFinalized := true, IsCritical := true }
          else if i = 2 then
            { VertexId := 11, Value := 1, ArcDownId := 1, ArcUpId := 2,
              IsFinalized := true, IsCritical := false }
          else if i = 3 then
            { VertexId := 12, Value := 2, ArcDownId := 2, ArcUpId := 0,
              IsFinalized := true, IsCritical := true }
          else zeroNode,
        Number := 3, FreeZone := 4 },
    MainArcTable :=
      { Buffer := fun i =>
          if i = 1 then
            { NodeId0 := 1, ArcUpId0 := 0, ArcDwId0 := 0,
              NodeId1 := 2, ArcUpId1 := 0, ArcDwId1 := 0,
              LabelId0 := 0, LabelId1 := 0 }
          else if i = 2 then
            { NodeId0 := 2, ArcUpId0 := 0, ArcDwId0 := 0,
              NodeId1 := 3, ArcUpId1 := 0, ArcDwId1 := 0,
              LabelId0 := 0, LabelId1 := 0 }
          else zeroArc,
        Number := 2, FreeZone := 3 },
    MainLabelTable := { Buffer := fun _ => zeroLabel, Number := 0, FreeZone := 1 },
    MinimumScalarValue := 0, MaximumScalarValue := 2 }

/-- Claim C8, witness: at node 2 of the concrete graph both walks return
degree 1 and the macro test agrees with the definitional test. -/
theorem c8_witness :
    vtkReebGraphIsRegular c8Graph (vtkReebGraphGetNode c8Graph 2) ↔
      ((vtkReebGraphGetNode c8Graph 2).IsCritical = false ∧ 1 = 1 ∧ 1 = 1) :=
  c8_is_regular_iff_degrees c8Graph 2 2 2 1 1 (by decide) (by decide)

/-! ## Vertex collapse (claim C2) -/

@[simp]
theorem writeArc_MainLabelTable (rg : vtkReebGraph) (i : Int) (a : vtkReebArc) :
    (writeArc rg i a).MainLabelTable = rg.MainLabelTable := rfl

@[simp]
theorem writeArc_MainNodeTable (rg : vtkReebGraph) (i : Int) (a : vtkReebArc) :
    (writeArc rg i a).MainNodeTable = rg.MainNodeTable := rfl

@[simp]
theorem writeNode_MainLabelTable (rg : vtkReebGraph) (i : Int) (nd : vtkReebNode) :
    (writeNode rg i nd).MainLabelTable = rg.MainLabelTable := rfl

@[simp]
theorem writeNode_MainArcTable (rg : vtkReebGraph) (i : Int) (nd : vtkReebNode) :
    (writeNode rg i nd).MainArcTable = rg.MainArcTable := rfl

@[simp]
theorem writeLabel_MainArcTable (rg : vtkReebGraph) (i : Int) (l : vtkReebLabel) :
    (writeLabel rg i l).MainArcTable = rg.MainArcTable := rfl

@[simp]
theorem writeLabel_MainNodeTable (rg : vtkReebGraph) (i : Int) (l : vtkReebLabel) :
    (writeLabel rg i l).MainNodeTable = rg.MainNodeTable := rfl

@[simp]
theorem getLabel_writeArc (rg : vtkReebGraph) (i : Int) (a : vtkReebArc) (j : Int) :
    vtkReebGraphGetLabel (writeArc rg i a) j = vtkReebGraphGetLabel rg j := rfl

@[simp]
theorem getLabel_writeNode (rg : vtkReebGraph) (i : Int) (nd : vtkReebNode) (j : Int) :
    vtkReebGraphGetLabel (writeNode rg i nd) j = vtkReebGraphGetLabel rg j := rfl

@[simp]
theorem getArc_writeNode (rg : vtkReebGraph) (i : Int) (nd : vtkReebNode) (j : Int) :
    vtkReebGraphGetArc (writeNode rg i nd) j = vtkReebGraphGetArc rg j := rfl

@[simp]
theorem getArc_writeLabel (rg : vtkReebGraph) (i : Int) (l : vtkReebLabel) (j : Int) :
    vtkReebGraphGetArc (writeLabel rg i l) j = vtkReebGraphGetArc rg j := rfl

@[simp]
theorem getNode_writeArc (rg : vtkReebGraph) (i : Int) (a : vtkReebArc) (j : Int) :
    vtkReebGraphGetNode (writeArc rg i a) j = vtkReebGraphGetNode rg j := rfl

@[simp]
theorem getNode_writeLabel (rg : vtkReebGraph) (i : Int) (l : vtkReebLabel) (j : Int) :
    vtkReebGraphGetNode (writeLabel rg i l) j = vtkReebGraphGetNode rg j := rfl

@[simp]
theorem getLabel_deleteArc (rg : vtkReebGraph) (A j : Int) :
    vtkReebGraphGetLabel (vtkReebGraphDeleteArc rg A) j = vtkReebGraphGetLabel rg j := rfl

@[simp]
theorem getLabel_deleteNode (rg : vtkReebGraph) (N j : Int) :
    vtkReebGraphGetLabel (vtkReebGraphDeleteNode rg N) j = vtkReebGraphGetLabel rg j := rfl

@[simp]
theorem getArc_deleteNode (rg : vtkReebGraph) (N j : Int) :
    vtkReebGraphGetArc (vtkReebGraphDeleteNode rg N) j = vtkReebGraphGetArc rg j := rfl

@[simp]
theorem getArc_deleteLabel (rg : vtkReebGraph) (L j : Int) :
    vtkReebGraphGetArc (vtkReebGraphDeleteLabel rg L) j = vtkReebGraphGetArc rg j := rfl

@[simp]
theorem getNode_deleteLabel (rg : vtkReebGraph) (L j : Int) :
    vtkReebGraphGetNode (vtkReebGraphDeleteLabel rg L) j = vtkReebGraphGetNode rg j := rfl

@[simp]
theorem deleteLabel_MainArcTable (rg : vtkReebGraph) (L : Int) :
    (vtkReebGraphDeleteLabel rg L).MainArcTable = rg.MainArcTable := rfl

@[simp]
theorem deleteLabel_MainNodeTable (rg : vtkReebGraph) (L : Int) :
    (vtkReebGraphDeleteLabel rg L).MainNodeTable = rg.MainNodeTable := rfl

/-- Statement if (lb->VPrev) GetLabel(rg, lb->VPrev)->VNext = lb->VNext of
the label loop in macro vtkReebGraphVertexCollapse (lb is the label Lb,
read from the current state). -/
def stepV1 (rg : vtkReebGraph) (Lb : Int) : vtkReebGraph :=
  if (vtkReebGraphGetLabel rg Lb).VPrev ≠ 0 then
    writeLabel rg (vtkReebGraphGetLabel rg Lb).VPrev
      { vtkReebGraphGetLabel rg ((vtkReebGraphGetLabel rg Lb).VPrev) with
          VNext := (vtkReebGraphGetLabel rg Lb).VNext }
  else rg

/-- Statement if (lb->VNext) GetLabel(rg, lb->VNext)->VPrev = lb->VPrev of
the label loop (fields of Lb re-read from the state after stepV1, exactly
as the C pointer reads do). -/
def stepV2 (rg : vtkReebGraph) (Lb : Int) : vtkReebGraph :=
  if (vtkReebGraphGetLabel rg Lb).VNext ≠ 0 then
    writeLabel rg (vtkReebGraphGetLabel rg Lb).VNext
      { vtkReebGraphGetLabel rg ((vtkReebGraphGetLabel rg Lb).VNext) with
          VPrev := (vtkReebGraphGetLabel rg Lb).VPrev }
  else rg

/-- One iteration of the label loop inside macro vtkReebGraphVertexCollapse,
for the current chain label Lb: if the label has a vertical predecessor, its
VNext is re-threaded past Lb; if it has a vertical successor, its VPrev is
re-threaded past Lb; then the label is deleted (returned to the pool). -/
def collapseLabelStep (rg : vtkReebGraph) (Lb : Int) : vtkReebGraph :=
  vtkReebGraphDeleteLabel (stepV2 (stepV1 rg Lb) Lb) Lb

/-- The label loop of macro vtkReebGraphVertexCollapse:
for (Lb = a1->LabelId0; Lb; Lb = Lnext) with Lnext captured as lb->HNext at
the top of each iteration.  Fuel-indexed. -/
def collapseLabelLoop : vtkReebGraph → Int → Nat → vtkReebGraph
  | rg, _, 0 => rg
  | rg, Lb, fuel + 1 =>
    if Lb = 0 then rg
    else collapseLabelLoop (collapseLabelStep rg Lb)
      (vtkReebGraphGetLabel rg Lb).HNext fuel

/-- The horizontal label chain starting at a label id, following the HNext
links until the null id; fuel-indexed, None when the walk does not
terminate within the fuel. -/
def labelHChain (rg : vtkReebGraph) : Int → Nat → Option (List Int)
  | _, 0 => none
  | L, fuel + 1 =>
    if L = 0 then some [] else
      match labelHChain rg (vtkReebGraphGetLabel rg L).HNext fuel with
      | some l => some (L :: l)
      | none => none

/-- Unfolding of one step of labelHChain in Option.map form. -/
theorem labelHChain_succ (rg : vtkReebGraph) (L : Int) (fuel : Nat) :
    labelHChain rg L (fuel + 1) =
      if L = 0 then some [] else
        (labelHChain rg (vtkReebGraphGetLabel rg L).HNext fuel).map
          (fun l => L :: l) := by
  by_cases hL : L = 0
  · simp [labelHChain, hL]
  · rw [labelHChain, if_neg hL, if_neg hL]
    cases labelHChain rg (vtkReebGraphGetLabel rg L).HNext fuel <;> rfl

/-- Statement a0->NodeId1 = a1->NodeId1 of macro vtkReebGraphVertexCollapse. -/
def spliceW1 (rg : vtkReebGraph) (A0 A1 : Int) : vtkReebGraph :=
  writeArc rg A0
    { vtkReebGraphGetArc rg A0 with NodeId1 := (vtkReebGraphGetArc rg A1).NodeId1 }

/-- Statement a0->ArcUpId1 = a1->ArcUpId1 of the macro. -/
def spliceW2 (rg : vtkReebGraph) (A0 A1 : Int) : vtkReebGraph :=
  writeArc rg A0
    { vtkReebGraphGetArc rg A0 with ArcUpId1 := (vtkReebGraphGetArc rg A1).ArcUpId1 }

/-- Statement if (a1->ArcUpId1) GetArc(rg, a1->ArcUpId1)->ArcDwId1 = A0. -/
def spliceW3 (rg : vtkReebGraph) (A0 A1 : Int) : vtkReebGraph :=
  if (vtkReebGraphGetArc rg A1).ArcUpId1 ≠ 0 then
    writeArc rg (vtkReebGraphGetArc rg A1).ArcUpId1
      { vtkReebGraphGetArc rg ((vtkReebGraphGetArc rg A1).ArcUpId1) with ArcDwId1 := A0 }
  else rg

/-- Statement a0->ArcDwId1 = a1->ArcDwId1 of the macro. -/
def spliceW4 (rg : vtkReebGraph) (A0 A1 : Int) : vtkReebGraph :=
  writeArc rg A0
    { vtkReebGraphGetArc rg A0 with ArcDwId1 := (vtkReebGraphGetArc rg A1).ArcDwId1 }

/-- Statement if (a1->ArcDwId1) GetArc(rg, a1->ArcDwId1)->ArcUpId1 = A0. -/
def spliceW5 (rg : vtkReebGraph) (A0 A1 : Int) : vtkReebGraph :=
  if (vtkReebGraphGetArc rg A1).ArcDwId1 ≠ 0 then
    writeArc rg (vtkReebGraphGetArc rg A1).ArcDwId1
      { vtkReebGraphGetArc rg ((vtkReebGraphGetArc rg A1).ArcDwId1) with ArcUpId1 := A0 }
  else rg

/-- Statement if (GetNode(rg, a1->NodeId1)->ArcDownId == A1) then that
ArcDownId head becomes A0. -/
def spliceW6 (rg : vtkReebGraph) (A0 A1 : Int) : vtkReebGraph :=
  if (vtkReebGraphGetNode rg (vtkReebGraphGetArc rg A1).NodeId1).ArcDownId = A1 then
    writeNode rg (vtkReebGraphGetArc rg A1).NodeId1
      { vtkReebGraphGetNode rg ((vtkReebGraphGetArc rg A1).NodeId1) with ArcDownId := A0 }
  else rg

/-- The first six statements of macro vtkReebGraphVertexCollapse: splice arc
A0 = n->ArcDownId in place of arc A1 = n->ArcUpId at the upper endpoint,
re-targeting A0 to the upper node of A1, taking over the down-list sibling
links of A1 (with back-pointer fix-ups) and the down-list head of that
upper node.  Statement order and the state each read sees match the C
text. -/
def vertexCollapseSplice (rg0 : vtkReebGraph) (N : Int) : vtkReebGraph :=
  let A0 := (vtkReebGraphGetNode rg0 N).ArcDownId
  let A1 := (vtkReebGraphGetNode rg0 N).ArcUpId
  spliceW6 (spliceW5 (spliceW4 (spliceW3 (spliceW2 (spliceW1 rg0 A0 A1) A0 A1) A0 A1) A0 A1) A0 A1) A0 A1

/-- Macro vtkReebGraphVertexCollapse: the endpoint splice, then the label
loop over the chain of A1, then DeleteArc(A1) and DeleteNode(N). -/
def vtkReebGraphVertexCollapse (rg0 : vtkReebGraph) (N : Int) (fuel : Nat) : vtkReebGraph :=
  let A1 := (vtkReebGraphGetNode rg0 N).ArcUpId
  let rg := vertexCollapseSplice rg0 N
  let rg := collapseLabelLoop rg (vtkReebGraphGetArc rg A1).LabelId0 fuel
  let rg := vtkReebGraphDeleteArc rg A1
  vtkReebGraphDeleteNode rg N

theorem spliceW1_MainLabelTable (rg : vtkReebGraph) (A0 A1 : Int) :
    (spliceW1 rg A0 A1).MainLabelTable = rg.MainLabelTable := rfl

theorem spliceW2_MainLabelTable (rg : vtkReebGraph) (A0 A1 : Int) :
    (spliceW2 rg A0 A1).MainLabelTable = rg.MainLabelTable := rfl

theorem spliceW3_MainLabelTable (rg : vtkReebGraph) (A0 A1 : Int) :
    (spliceW3 rg A0 A1).MainLabelTable = rg.MainLabelTable := by
  unfold spliceW3; split_ifs <;> rfl

theorem spliceW4_MainLabelTable (rg : vtkReebGraph) (A0 A1 : Int) :
    (spliceW4 rg A0 A1).MainLabelTable = rg.MainLabelTable := rfl

theorem spliceW5_MainLabelTable (rg : vtkReebGraph) (A0 A1 : Int) :
    (spliceW5 rg A0 A1).MainLabelTable = rg.MainLabelTable := by
  unfold spliceW5; split_ifs <;> rfl

theorem spliceW6_MainLabelTable (rg : vtkReebGraph) (A0 A1 : Int) :
    (spliceW6 rg A0 A1).MainLabelTable = rg.MainLabelTable := by
  unfold spliceW6; split_ifs <;> rfl

theorem spliceW6_getArc (rg : vtkReebGraph) (A0 A1 A : Int) :
    vtkReebGraphGetArc (spliceW6 rg A0 A1) A = vtkReebGraphGetArc rg A := by
  unfold spliceW6; split_ifs <;> rfl

theorem spliceW1_preserves (rg : vtkReebGraph) (A0 A1 A : Int) :
    (vtkReebGraphGetArc (spliceW1 rg A0 A1) A).LabelId0
      = (vtkReebGraphGetArc rg A).LabelId0 ∧
    (vtkReebGraphGetArc (spliceW1 rg A0 A1) A).NodeId0
      = (vtkReebGraphGetArc rg A).NodeId0 := by
  unfold spliceW1
  rw [getArc_writeArc]
  split_ifs with h
  · subst h; exact ⟨rfl, rfl⟩
  · exact ⟨rfl, rfl⟩

theorem spliceW1_NodeId1_self (rg : vtkReebGraph) (A0 A1 : Int) :
    (vtkReebGraphGetArc (spliceW1 rg A0 A1) A0).NodeId1
      = (vtkReebGraphGetArc rg A1).NodeId1 := by
  unfold spliceW1
  rw [getArc_writeArc]
  simp

theorem spliceW2_preserves (rg : vtkReebGraph) (A0 A1 A : Int) :
    (vtkReebGraphGetArc (spliceW2 rg A0 A1) A).LabelId0
      = (vtkReebGraphGetArc rg A).LabelId0 ∧
    (vtkReebGraphGetArc (spliceW2 rg A0 A1) A).NodeId0
      = (vtkReebGraphGetArc rg A).NodeId0 ∧
    (vtkReebGraphGetArc (spliceW2 rg A0 A1) A).NodeId1
      = (vtkReebGraphGetArc rg A).NodeId1 := by
  unfold spliceW2
  rw [getArc_writeArc]
  split_ifs with h
  · subst h; exact ⟨rfl, rfl, rfl⟩
  · exact ⟨rfl, rfl, rfl⟩

theorem spliceW3_preserves (rg : vtkReebGraph) (A0 A1 A : Int) :
    (vtkReebGraphGetArc (spliceW3 rg A0 A1) A).LabelId0
      = (vtkReebGraphGetArc rg A).LabelId0 ∧
    (vtkReebGraphGetArc (spliceW3 rg A0 A1) A).NodeId0
      = (vtkReebGraphGetArc rg A).NodeId0 ∧
    (vtkReebGraphGetArc (spliceW3 rg A0 A1) A).NodeId1
      = (vtkReebGraphGetArc rg A).NodeId1 := by
  unfold spliceW3
  split_ifs with hc
  · rw [getArc_writeArc]
    split_ifs with h
    · subst h; exact ⟨rfl, rfl, rfl⟩
    · exact ⟨rfl, rfl, rfl⟩
  · exact ⟨rfl, rfl, rfl⟩

theorem spliceW4_preserves (rg : vtkReebGraph) (A0 A1 A : Int) :
    (vtkReebGraphGetArc (spliceW4 rg A0 A1) A).LabelId0
      = (vtkReebGraphGetArc rg A).LabelId0 ∧
    (vtkReebGraphGetArc (spliceW4 rg A0 A1) A).NodeId0
      = (vtkReebGraphGetArc rg A).NodeId0 ∧
    (vtkReebGraphGetArc (spliceW4 rg A0 A1) A).NodeId1
      = (vtkReebGraphGetArc rg A).NodeId1 := by
  unfold spliceW4
  rw [getArc_writeArc]
  split_ifs with h
  · subst h; exact ⟨rfl, rfl, rfl⟩
  · exact ⟨rfl, rfl, rfl⟩

theorem spliceW5_preserves (rg : vtkReebGraph) (A0 A1 A : Int) :
    (vtkReebGraphGetArc (spliceW5 rg A0 A1) A).LabelId0
      = (vtkReebGraphGetArc rg A).LabelId0 ∧
    (vtkReebGraphGetArc (spliceW5 rg A0 A1) A).NodeId0
      = (vtkReebGraphGetArc rg A).NodeId0 ∧
    (vtkReebGraphGetArc (spliceW5 rg A0 A1) A).NodeId1
      = (vtkReebGraphGetArc rg A).NodeId1 := by
  unfold spliceW5
  split_ifs with hc
  · rw [getArc_writeArc]
    split_ifs with h
    · subst h; exact ⟨rfl, rfl, rfl⟩
    · exact ⟨rfl, rfl, rfl⟩
  · exact ⟨rfl, rfl, rfl⟩

/-- The splice never touches the label pool, never changes the LabelId0
field of any arc, never changes the NodeId0 field of any arc, and sets the
NodeId1 field of A0 to the NodeId1 of A1. -/
theorem vertexCollapseSplice_facts (rg : vtkReebGraph) (N : Int) :
    (vertexCollapseSplice rg N).MainLabelTable = rg.MainLabelTable ∧
    (∀ A : Int, (vtkReebGraphGetArc (vertexCollapseSplice rg N) A).LabelId0
      = (vtkReebGraphGetArc rg A).LabelId0) ∧
    (∀ A : Int, (vtkReebGraphGetArc (vertexCollapseSplice rg N) A).NodeId0
      = (vtkReebGraphGetArc rg A).NodeId0) ∧
    ((vtkReebGraphGetArc (vertexCollapseSplice rg N)
        (vtkReebGraphGetNode rg N).ArcDownId).NodeId1
      = (vtkReebGraphGetArc rg (vtkReebGraphGetNode rg N).ArcUpId).NodeId1) := by
  unfold vertexCollapseSplice
  refine ⟨?_, fun A => ?_, fun A => ?_, ?_⟩
  · rw [spliceW6_MainLabelTable, spliceW5_MainLabelTable, spliceW4_MainLabelTable,
      spliceW3_MainLabelTable, spliceW2_MainLabelTable, spliceW1_MainLabelTable]
  · rw [spliceW6_getArc, (spliceW5_preserves _ _ _ _).1, (spliceW4_preserves _ _ _ _).1,
      (spliceW3_preserves _ _ _ _).1, (spliceW2_preserves _ _ _ _).1,
      (spliceW1_preserves _ _ _ _).1]
  · rw [spliceW6_getArc, (spliceW5_preserves _ _ _ _).2.1, (spliceW4_preserves _ _ _ _).2.1,
      (spliceW3_preserves _ _ _ _).2.1, (spliceW2_preserves _ _ _ _).2.1,
      (spliceW1_preserves _ _ _ _).2]
  · rw [spliceW6_getArc, (spliceW5_preserves _ _ _ _).2.2, (spliceW4_preserves _ _ _ _).2.2,
      (spliceW3_preserves _ _ _ _).2.2, (spliceW2_preserves _ _ _ _).2.2,
      spliceW1_NodeId1_self]

theorem writeLabel_HNext_pres (rg : vtkReebGraph) (t : Int) (rec : vtkReebLabel)
    (hrec : rec.HNext = (vtkReebGraphGetLabel rg t).HNext) (m : Int) :
    (vtkReebGraphGetLabel (writeLabel rg t rec) m).HNext
      = (vtkReebGraphGetLabel rg m).HNext := by
  rw [getLabel_writeLabel]
  split_ifs with h
  · subst h; exact hrec
  · rfl

theorem stepV1_HNext (rg : vtkReebGraph) (Lb m : Int) :
    (vtkReebGraphGetLabel (stepV1 rg Lb) m).HNext
      = (vtkReebGraphGetLabel rg m).HNext := by
  unfold stepV1
  split_ifs with hc
  · apply writeLabel_HNext_pres
    rfl
  · rfl

theorem stepV2_HNext (rg : vtkReebGraph) (Lb m : Int) :
    (vtkReebGraphGetLabel (stepV2 rg Lb) m).HNext
      = (vtkReebGraphGetLabel rg m).HNext := by
  unfold stepV2
  split_ifs with hc
  · apply writeLabel_HNext_pres
    rfl
  · rfl

theorem getLabel_deleteLabel_ne (rg : vtkReebGraph) (L j : Int) (h : j ≠ L) :
    vtkReebGraphGetLabel (vtkReebGraphDeleteLabel rg L) j
      = vtkReebGraphGetLabel rg j := by
  simp [vtkReebGraphDeleteLabel, vtkReebGraphClearLabel, vtkReebGraphGetLabel,
    writeLabel, Function.update_apply, h]

theorem deleteLabel_HNext_self (rg : vtkReebGraph) (L : Int) :
    (vtkReebGraphGetLabel (vtkReebGraphDeleteLabel rg L) L).HNext = -2 := by
  simp [vtkReebGraphDeleteLabel, vtkReebGraphClearLabel, vtkReebGraphGetLabel,
    writeLabel, Function.update_apply]

theorem collapseLabelStep_HNext_ne (rg : vtkReebGraph) (Lb m : Int) (h : m ≠ Lb) :
    (vtkReebGraphGetLabel (collapseLabelStep rg Lb) m).HNext
      = (vtkReebGraphGetLabel rg m).HNext := by
  unfold collapseLabelStep
  rw [getLabel_deleteLabel_ne _ _ _ h, stepV2_HNext, stepV1_HNext]

theorem collapseLabelStep_HNext_self (rg : vtkReebGraph) (Lb : Int) :
    (vtkReebGraphGetLabel (collapseLabelStep rg Lb) Lb).HNext = -2 := by
  unfold collapseLabelStep
  exact deleteLabel_HNext_self _ _

theorem stepV1_MainArcTable (rg : vtkReebGraph) (Lb : Int) :
    (stepV1 rg Lb).MainArcTable = rg.MainArcTable := by
  unfold stepV1; split_ifs <;> rfl

theorem stepV2_MainArcTable (rg : vtkReebGraph) (Lb : Int) :
    (stepV2 rg Lb).MainArcTable = rg.MainArcTable := by
  unfold stepV2; split_ifs <;> rfl

theorem stepV1_MainNodeTable (rg : vtkReebGraph) (Lb : Int) :
    (stepV1 rg Lb).MainNodeTable = rg.MainNodeTable := by
  unfold stepV1; split_ifs <;> rfl

theorem stepV2_MainNodeTable (rg : vtkReebGraph) (Lb : Int) :
    (stepV2 rg Lb).MainNodeTable = rg.MainNodeTable := by
  unfold stepV2; split_ifs <;> rfl

theorem collapseLabelStep_MainArcTable (rg : vtkReebGraph) (Lb : Int) :
    (collapseLabelStep rg Lb).MainArcTable = rg.MainArcTable := by
  unfold collapseLabelStep
  rw [deleteLabel_MainArcTable, stepV2_MainArcTable, stepV1_MainArcTable]

theorem collapseLabelStep_MainNodeTable (rg : vtkReebGraph) (Lb : Int) :
    (collapseLabelStep rg Lb).MainNodeTable = rg.MainNodeTable := by
  unfold collapseLabelStep
  rw [deleteLabel_MainNodeTable, stepV2_MainNodeTable, stepV1_MainNodeTable]

theorem collapseLabelLoop_MainArcTable (fuel : Nat) :
    ∀ (rg : vtkReebGraph) (Lb : Int),
      (collapseLabelLoop rg Lb fuel).MainArcTable = rg.MainArcTable := by
  induction fuel with
  | zero => intro rg Lb; rfl
  | succ fuel ih =>
    intro rg Lb
    rw [collapseLabelLoop]
    split_ifs with h
    · rfl
    · rw [ih, collapseLabelStep_MainArcTable]

theorem collapseLabelLoop_MainNodeTable (fuel : Nat) :
    ∀ (rg : vtkReebGraph) (Lb : Int),
      (collapseLabelLoop rg Lb fuel).MainNodeTable = rg.MainNodeTable := by
  induction fuel with
  | zero => intro rg Lb; rfl
  | succ fuel ih =>
    intro rg Lb
    rw [collapseLabelLoop]
    split_ifs with h
    · rfl
    · rw [ih, collapseLabelStep_MainNodeTable]

/-- Two states with the same label pool produce the same horizontal chains. -/
theorem labelHChain_table_congr (rg rg2 : vtkReebGraph)
    (h : rg2.MainLabelTable = rg.MainLabelTable) :
    ∀ (fuel : Nat) (L : Int), labelHChain rg2 L fuel = labelHChain rg L fuel := by
  have hg : ∀ j, vtkReebGraphGetLabel rg2 j = vtkReebGraphGetLabel rg j := by
    intro j; unfold vtkReebGraphGetLabel; rw [h]
  intro fuel
  induction fuel with
  | zero => intro L; rfl
  | succ fuel ih =>
    intro L
    rw [labelHChain_succ, labelHChain_succ, hg, ih]

/-- A horizontal chain only depends on the HNext fields of its members:
any state that agrees on those fields yields the same chain. -/
theorem labelHChain_congr (fuel : Nat) :
    ∀ (rg rg2 : vtkReebGraph) (L : Int) (ls : List Int),
      labelHChain rg L fuel = some ls →
      (∀ m ∈ ls, (vtkReebGraphGetLabel rg2 m).HNext
        = (vtkReebGraphGetLabel rg m).HNext) →
      labelHChain rg2 L fuel = some ls := by
  induction fuel with
  | zero => intro rg rg2 L ls h hagree; simp [labelHChain] at h
  | succ fuel ih =>
    intro rg rg2 L ls h hagree
    rw [labelHChain_succ] at h ⊢
    by_cases hL : L = 0
    · rw [if_pos hL] at h ⊢; exact h
    · rw [if_neg hL] at h ⊢
      rcases hrest : labelHChain rg (vtkReebGraphGetLabel rg L).HNext fuel with _ | rest
      · rw [hrest] at h; simp at h
      · rw [hrest] at h
        simp at h
        subst h
        have hnext_eq : (vtkReebGraphGetLabel rg2 L).HNext
            = (vtkReebGraphGetLabel rg L).HNext :=
          hagree L (List.mem_cons_self _ _)
        rw [hnext_eq]
        have hrec := ih rg rg2 (vtkReebGraphGetLabel rg L).HNext rest hrest
          (fun m hm => hagree m (List.mem_cons_of_mem _ hm))
        rw [hrec]
        rfl

/-- Specification of the label loop over a well-formed horizontal chain: it
leaves the HNext field of every label outside the chain untouched and marks
every chain member cleared (HNext = -2, the deleted state). -/
theorem collapseLabelLoop_spec (fuel : Nat) :
    ∀ (rg : vtkReebGraph) (Lb : Int) (ls : List Int),
      labelHChain rg Lb fuel = some ls → ls.Nodup →
      (∀ m, m ∉ ls →
        (vtkReebGraphGetLabel (collapseLabelLoop rg Lb fuel) m).HNext
          = (vtkReebGraphGetLabel rg m).HNext) ∧
      (∀ l ∈ ls,
        (vtkReebGraphGetLabel (collapseLabelLoop rg Lb fuel) l).HNext = -2) := by
  induction fuel with
  | zero => intro rg Lb ls h hnodup; simp [labelHChain] at h
  | succ fuel ih =>
    intro rg Lb ls h hnodup
    rw [labelHChain_succ] at h
    by_cases hLb : Lb = 0
    · rw [if_pos hLb] at h
      simp at h
      subst h
      constructor
      · intro m _
        rw [collapseLabelLoop, if_pos hLb]
      · intro l hl
        simp at hl
    · rw [if_neg hLb] at h
      rcases hrest : labelHChain rg (vtkReebGraphGetLabel rg Lb).HNext fuel with _ | rest
      · rw [hrest] at h; simp at h
      · rw [hrest] at h
        simp at h
        subst h
        obtain ⟨hLbnotin, hrestnodup⟩ := List.nodup_cons.mp hnodup
        have hloop : collapseLabelLoop rg Lb (fuel + 1)
            = collapseLabelLoop (collapseLabelStep rg Lb)
                (vtkReebGraphGetLabel rg Lb).HNext fuel := by
          rw [collapseLabelLoop, if_neg hLb]
        have hchain2 : labelHChain (collapseLabelStep rg Lb)
            (vtkReebGraphGetLabel rg Lb).HNext fuel = some rest := by
          apply labelHChain_congr fuel rg _ _ rest hrest
          intro m hm
          exact collapseLabelStep_HNext_ne rg Lb m
            (fun he => hLbnotin (he ▸ hm))
        obtain ⟨ihA, ihB⟩ := ih (collapseLabelStep rg Lb) _ rest hchain2 hrestnodup
        rw [hloop]
        constructor
        · intro m hm
          have hm1 : m ≠ Lb := fun he => hm (he ▸ List.mem_cons_self _ _)
          have hm2 : m ∉ rest := fun he => hm (List.mem_cons_of_mem _ he)
          rw [ihA m hm2, collapseLabelStep_HNext_ne rg Lb m hm1]
        · intro l hl
          rcases List.mem_cons.mp hl with rfl | hl2
          · rw [ihA l hLbnotin, collapseLabelStep_HNext_self]
          · exact ihB l hl2

theorem getArc_deleteArc_ne (rg : vtkReebGraph) (A j : Int) (h : j ≠ A) :
    vtkReebGraphGetArc (vtkReebGraphDeleteArc rg A) j = vtkReebGraphGetArc rg j := by
  simp [vtkReebGraphDeleteArc, vtkReebGraphClearArc, vtkReebGraphGetArc,
    writeArc, Function.update_apply, h]

theorem deleteArc_LabelId1_self (rg : vtkReebGraph) (A : Int) :
    (vtkReebGraphGetArc (vtkReebGraphDeleteArc rg A) A).LabelId1 = -2 := by
  simp [vtkReebGraphDeleteArc, vtkReebGraphClearArc, vtkReebGraphGetArc,
    writeArc, Function.update_apply]

theorem deleteNode_ArcUpId_self (rg : vtkReebGraph) (N : Int) :
    (vtkReebGraphGetNode (vtkReebGraphDeleteNode rg N) N).ArcUpId = -2 := by
  simp [vtkReebGraphDeleteNode, vtkReebGraphClearNode, vtkReebGraphGetNode,
    writeNode, Function.update_apply]

/-- Claim C2 as amended: for a degree-(1,1) node N with down arc A0 and up
arc A1 (distinct, with a well-formed label chain on A1), the macro
vtkReebGraphVertexCollapse re-targets A0 into a single arc spanning from
the lower endpoint of A0 to the upper endpoint of A1, deletes the node N
and the arc A1, and deletes every label of the chain of A1 after
unthreading it from its vertical chain: the labels formerly on A1 do not
survive and are not transferred onto A0. -/
theorem c2_amended (rg : vtkReebGraph) (N : Int) (fuel : Nat) (ls : List Int)
    (hA0A1 : (vtkReebGraphGetNode rg N).ArcDownId ≠ (vtkReebGraphGetNode rg N).ArcUpId)
    (hchain : labelHChain rg
      (vtkReebGraphGetArc rg (vtkReebGraphGetNode rg N).ArcUpId).LabelId0 fuel
        = some ls)
    (hnodup : ls.Nodup) :
    (vtkReebGraphGetArc (vtkReebGraphVertexCollapse rg N fuel)
        (vtkReebGraphGetNode rg N).ArcDownId).NodeId0
      = (vtkReebGraphGetArc rg (vtkReebGraphGetNode rg N).ArcDownId).NodeId0 ∧
    (vtkReebGraphGetArc (vtkReebGraphVertexCollapse rg N fuel)
        (vtkReebGraphGetNode rg N).ArcDownId).NodeId1
      = (vtkReebGraphGetArc rg (vtkReebGraphGetNode rg N).ArcUpId).NodeId1 ∧
    vtkReebGraphIsArcCleared (vtkReebGraphVertexCollapse rg N fuel)
      (vtkReebGraphGetNode rg N).ArcUpId ∧
    vtkReebGraphIsNodeCleared (vtkReebGraphVertexCollapse rg N fuel) N ∧
    (∀ l ∈ ls, vtkReebGraphIsLabelCleared (vtkReebGraphVertexCollapse rg N fuel) l) := by
  obtain ⟨hT, hL0, hN0, hN1⟩ := vertexCollapseSplice_facts rg N
  have hdef : vtkReebGraphVertexCollapse rg N fuel =
      vtkReebGraphDeleteNode
        (vtkReebGraphDeleteArc
          (collapseLabelLoop (vertexCollapseSplice rg N)
            ((vtkReebGraphGetArc (vertexCollapseSplice rg N)
                (vtkReebGraphGetNode rg N).ArcUpId).LabelId0) fuel)
          (vtkReebGraphGetNode rg N).ArcUpId) N := rfl
  have hgetArcLp : ∀ A : Int,
      vtkReebGraphGetArc (collapseLabelLoop (vertexCollapseSplice rg N)
          ((vtkReebGraphGetArc (vertexCollapseSplice rg N)
              (vtkReebGraphGetNode rg N).ArcUpId).LabelId0) fuel) A
        = vtkReebGraphGetArc (vertexCollapseSplice rg N) A := by
    intro A
    unfold vtkReebGraphGetArc
    rw [collapseLabelLoop_MainArcTable]
  refine ⟨?_, ?_, ?_, ?_, ?_⟩
  · rw [hdef, getArc_deleteNode, getArc_deleteArc_ne _ _ _ hA0A1, hgetArcLp, hN0]
  · rw [hdef, getArc_deleteNode, getArc_deleteArc_ne _ _ _ hA0A1, hgetArcLp]
    exact hN1
  · unfold vtkReebGraphIsArcCleared
    rw [hdef, getArc_deleteNode]
    exact deleteArc_LabelId1_self _ _
  · unfold vtkReebGraphIsNodeCleared
    rw [hdef]
    exact deleteNode_ArcUpId_self _ _
  · have hchainS : labelHChain (vertexCollapseSplice rg N)
        ((vtkReebGraphGetArc (vertexCollapseSplice rg N)
            (vtkReebGraphGetNode rg N).ArcUpId).LabelId0) fuel = some ls := by
      rw [hL0, labelHChain_table_congr rg (vertexCollapseSplice rg N) hT]
      exact hchain
    obtain ⟨-, hclear⟩ := collapseLabelLoop_spec fuel (vertexCollapseSplice rg N)
      _ ls hchainS hnodup
    intro l hl
    unfold vtkReebGraphIsLabelCleared
    rw [hdef, getLabel_deleteNode, getLabel_deleteArc]
    exact hclear l hl

/-- A concrete three-node chain 1 - 2 - 3 with a single label (id 1, tag 7)
on the up arc (arc 2) of the regular middle node 2. -/
def c2Graph : vtkReebGraph :=
  { MainNodeTable :=
      { Buffer := fun i =>
          if i = 1 then
            { VertexId := 1, Value := 0, ArcDownId := 0, ArcUpId := 1,
              IsFinalized := true, IsCritical := true }
          else if i = 2 then
            { VertexId := 2, Value := 1, ArcDownId := 1, ArcUpId := 2,
              IsFinalized := true, IsCritical := false }
          else if i = 3 then
            { VertexId := 3, Value := 2, ArcDownId := 2, ArcUpId := 0,
              IsFinalized := true, IsCritical := true }
          else zeroNode,
        Number := 3, FreeZone := 4 },
    MainArcTable :=
      { Buffer := fun i =>
          if i = 1 then
            { NodeId0 := 1, ArcUpId0 := 0, ArcDwId0 := 0,
              NodeId1 := 2, ArcUpId1 := 0, ArcDwId1 := 0,
              LabelId0 := 0, LabelId1 := 0 }
          else if i = 2 then
            { NodeId0 := 2, ArcUpId0 := 0, ArcDwId0 := 0,
              NodeId1 := 3, ArcUpId1 := 0, ArcDwId1 := 0,
              LabelId0 := 1, LabelId1 := 1 }
          else zeroArc,
        Number := 2, FreeZone := 3 },
    MainLabelTable :=
      { Buffer := fun i =>
          if i = 1 then
            { ArcId := 2, HPrev := 0, HNext := 0, label := 7, VPrev := 0, VNext := 0 }
          else zeroLabel,
        Number := 1, FreeZone := 2 },
    MinimumScalarValue := 0, MaximumScalarValue := 2 }

/-- Claim C2, counterexample: collapsing the regular node 2 of c2Graph
DELETES the label (id 1) that lived on the up arc: afterwards the label
slot is cleared (freed back to the pool) and the label chain of the
surviving arc a_down (arc 1) is empty.  This contradicts the claim that the
labels formerly on a_up survive, attached to a_down. -/
theorem c2_counterexample :
    vtkReebGraphIsLabelCleared (vtkReebGraphVertexCollapse c2Graph 2 2) 1 ∧
      (vtkReebGraphGetArc (vtkReebGraphVertexCollapse c2Graph 2 2) 1).LabelId0 = 0 := by
  decide

/-- Claim C2 amended, witness: c2_amended instantiated on c2Graph at node 2
with the one-label chain [1]. -/
theorem c2_amended_witness :
    (vtkReebGraphGetArc (vtkReebGraphVertexCollapse c2Graph 2 2)
        (vtkReebGraphGetNode c2Graph 2).ArcDownId).NodeId0
      = (vtkReebGraphGetArc c2Graph (vtkReebGraphGetNode c2Graph 2).ArcDownId).NodeId0 ∧
    (vtkReebGraphGetArc (vtkReebGraphVertexCollapse c2Graph 2 2)
        (vtkReebGraphGetNode c2Graph 2).ArcDownId).NodeId1
      = (vtkReebGraphGetArc c2Graph (vtkReebGraphGetNode c2Graph 2).ArcUpId).NodeId1 ∧
    vtkReebGraphIsArcCleared (vtkReebGraphVertexCollapse c2Graph 2 2)
      (vtkReebGraphGetNode c2Graph 2).ArcUpId ∧
    vtkReebGraphIsNodeCleared (vtkReebGraphVertexCollapse c2Graph 2 2) 2 ∧
    (∀ l ∈ [(1 : Int)],
      vtkReebGraphIsLabelCleared (vtkReebGraphVertexCollapse c2Graph 2 2) l) :=
  c2_amended c2Graph 2 2 [1] (by decide) (by decide) (by decide)

/-! ## Build error codes (claim C6) -/

/-- Enum constant ERR_INCORRECT_FIELD of class vtkReebGraph (header line
143). -/
def ERR_INCORRECT_FIELD : Int := -1

/-- Enum constant ERR_NO_SUCH_FIELD of class vtkReebGraph (header line
144). -/
def ERR_NO_SUCH_FIELD : Int := -2

/-- Enum constant ERR_NOT_A_SIMPLICIAL_MESH of class vtkReebGraph (header
line 145). -/
def ERR_NOT_A_SIMPLICIAL_MESH : Int := -3

/-- Modelled from the spec: the mesh as the Build overloads see it — a
vertex count and the sizes of its cells (3 for triangles, 4 for
tetrahedra).  The concrete vtkPolyData / vtkUnstructuredGrid accessors are
external collaborators out of scope of the spec. -/
structure MeshModel where
  numVertices : Nat
  cellSizes : List Nat

/-- Modelled from the spec: the scalar field as Build sees it — its tuple
count. -/
structure FieldModel where
  numTuples : Nat

/-- Modelled from the spec: the bodies of the Build overloads live in the
implementation file, which is not under src.  Build with an absent
(named or indexed) field returns ERR_NO_SUCH_FIELD; with a field whose
tuple count differs from the mesh vertex count it returns
ERR_INCORRECT_FIELD; with a mesh containing a cell that is not a simplex
of the expected size it returns ERR_NOT_A_SIMPLICIAL_MESH; otherwise 0. -/
def Build (simplexSize : Nat) (mesh : MeshModel) (field : Option FieldModel) : Int :=
  match field with
  | none => ERR_NO_SUCH_FIELD
  | some f =>
    if f.numTuples ≠ mesh.numVertices then ERR_INCORRECT_FIELD
    else if mesh.cellSizes.any (fun s => s != simplexSize) then ERR_NOT_A_SIMPLICIAL_MESH
    else 0

/-- Claim C6: the three enum constants have the numeric values -1, -2, -3,
and Build returns exactly ERR_NO_SUCH_FIELD when the field is absent,
ERR_INCORRECT_FIELD when the tuple count differs from the vertex count,
ERR_NOT_A_SIMPLICIAL_MESH when some cell is not a simplex of the expected
size, and 0 on success. -/
theorem c6_build_error_codes :
    (ERR_INCORRECT_FIELD = -1 ∧ ERR_NO_SUCH_FIELD = -2 ∧
      ERR_NOT_A_SIMPLICIAL_MESH = -3) ∧
    (∀ (k : Nat) (mesh : MeshModel), Build k mesh none = ERR_NO_SUCH_FIELD) ∧
    (∀ (k : Nat) (mesh : MeshModel) (f : FieldModel),
      f.numTuples ≠ mesh.numVertices → Build k mesh (some f) = ERR_INCORRECT_FIELD) ∧
    (∀ (k : Nat) (mesh : MeshModel) (f : FieldModel),
      f.numTuples = mesh.numVertices → (∃ c ∈ mesh.cellSizes, c ≠ k) →
        Build k mesh (some f) = ERR_NOT_A_SIMPLICIAL_MESH) ∧
    (∀ (k : Nat) (mesh : MeshModel) (f : FieldModel),
      f.numTuples = mesh.numVertices → (∀ c ∈ mesh.cellSizes, c = k) →
        Build k mesh (some f) = 0) := by
  refine ⟨⟨rfl, rfl, rfl⟩, ?_, ?_, ?_, ?_⟩
  · intro k mesh; rfl
  · intro k mesh f h
    simp [Build, h]
  · intro k mesh f h hcell
    have hany : mesh.cellSizes.any (fun s => s != k) = true := by
      rw [List.any_eq_true]
      obtain ⟨c, hc, hck⟩ := hcell
      exact ⟨c, hc, by simpa using hck⟩
    simp [Build, h, hany]
  · intro k mesh f h hcell
    have hany : mesh.cellSizes.any (fun s => s != k) = false := by
      rw [List.any_eq_false]
      intro c hc
      simpa using hcell c hc
    simp [Build, h, hany]

/-- Claim C6, witness: c6_build_error_codes evaluated on a one-triangle mesh
with three vertices, in each of the four situations. -/
theorem c6_witness :
    Build 3 { numVertices := 3, cellSizes := [3] } none = ERR_NO_SUCH_FIELD ∧
    Build 3 { numVertices := 3, cellSizes := [3] }
      (some { numTuples := 2 }) = ERR_INCORRECT_FIELD ∧
    Build 3 { numVertices := 4, cellSizes := [4] }
      (some { numTuples := 4 }) = ERR_NOT_A_SIMPLICIAL_MESH ∧
    Build 3 { numVertices := 3, cellSizes := [3] }
      (some { numTuples := 3 }) = 0 :=
  ⟨c6_build_error_codes.2.1 3 { numVertices := 3, cellSizes := [3] },
   c6_build_error_codes.2.2.1 3 { numVertices := 3, cellSizes := [3] }
     { numTuples := 2 } (by decide),
   c6_build_error_codes.2.2.2.1 3 { numVertices := 4, cellSizes := [4] }
     { numTuples := 4 } (by decide) ⟨4, by decide, by decide⟩,
   c6_build_error_codes.2.2.2.2 3 { numVertices := 3, cellSizes := [3] }
     { numTuples := 3 } (by decide)
     (by intro c hc; simp only [List.mem_singleton] at hc; exact hc)⟩

/-! ## Simplification postcondition (claim C5) -/

/-- Modelled from the spec: an arc as the simplifier sees it — whether it is
a loop arc (listed in ArcLoopTable) or a branch arc, its default normalized
persistence, and the value the injected metric would assign to it. -/
structure SimplArc where
  isLoop : Bool
  defaultPersistence : ℚ
  metricValue : ℚ
deriving DecidableEq

/-- Modelled from the spec: the importance of an arc during simplification
is metric(a) when a metric is supplied, else the default normalized
persistence. -/
def arcSimplificationValue (useMetric : Bool) (a : SimplArc) : ℚ :=
  if useMetric then a.metricValue else a.defaultPersistence

/-- Modelled from the spec: SimplifyBranches (whose body is not under src)
repeatedly retracts branch (non-loop) arcs whose persistence is at or below
the threshold, counting the removed arcs. -/
def SimplifyBranches (t : ℚ) (useMetric : Bool) : List SimplArc → Nat × List SimplArc
  | [] => (0, [])
  | a :: rest =>
    let p := SimplifyBranches t useMetric rest
    if a.isLoop = false ∧ arcSimplificationValue useMetric a ≤ t then (p.1 + 1, p.2)
    else (p.1, a :: p.2)

/-- Modelled from the spec: SimplifyLoops (whose body is not under src)
cuts loop arcs whose persistence is at or below the threshold, counting the
removed arcs. -/
def SimplifyLoops (t : ℚ) (useMetric : Bool) : List SimplArc → Nat × List SimplArc
  | [] => (0, [])
  | a :: rest =>
    let p := SimplifyLoops t useMetric rest
    if a.isLoop = true ∧ arcSimplificationValue useMetric a ≤ t then (p.1 + 1, p.2)
    else (p.1, a :: p.2)

/-- Modelled from the spec: Simplify runs SimplifyBranches then
SimplifyLoops and returns the total number of removed arcs together with
the surviving arcs. -/
def Simplify (t : ℚ) (useMetric : Bool) (arcs : List SimplArc) : Nat × List SimplArc :=
  let b := SimplifyBranches t useMetric arcs
  let l := SimplifyLoops t useMetric b.2
  (b.1 + l.1, l.2)

theorem simplifyBranches_mem (t : ℚ) (u : Bool) :
    ∀ (arcs : List SimplArc) (a : SimplArc), a ∈ (SimplifyBranches t u arcs).2 →
      a ∈ arcs ∧ (a.isLoop = false → ¬ arcSimplificationValue u a ≤ t) := by
  intro arcs
  induction arcs with
  | nil => intro a ha; simp [SimplifyBranches] at ha
  | cons x rest ih =>
    intro a ha
    rw [SimplifyBranches] at ha
    split_ifs at ha with hx
    · obtain ⟨h1, h2⟩ := ih a ha
      exact ⟨List.mem_cons_of_mem _ h1, h2⟩
    · rcases List.mem_cons.mp ha with rfl | ha2
      · refine ⟨List.mem_cons_self _ _, ?_⟩
        intro hbranch hle
        exact hx ⟨hbranch, hle⟩
      · obtain ⟨h1, h2⟩ := ih a ha2
        exact ⟨List.mem_cons_of_mem _ h1, h2⟩

theorem simplifyLoops_mem (t : ℚ) (u : Bool) :
    ∀ (arcs : List SimplArc) (a : SimplArc), a ∈ (SimplifyLoops t u arcs).2 →
      a ∈ arcs ∧ (a.isLoop = true → ¬ arcSimplificationValue u a ≤ t) := by
  intro arcs
  induction arcs with
  | nil => intro a ha; simp [SimplifyLoops] at ha
  | cons x rest ih =>
    intro a ha
    rw [SimplifyLoops] at ha
    split_ifs at ha with hx
    · obtain ⟨h1, h2⟩ := ih a ha
      exact ⟨List.mem_cons_of_mem _ h1, h2⟩
    · rcases List.mem_cons.mp ha with rfl | ha2
      · refine ⟨List.mem_cons_self _ _, ?_⟩
        intro hloop hle
        exact hx ⟨hloop, hle⟩
      · obtain ⟨h1, h2⟩ := ih a ha2
        exact ⟨List.mem_cons_of_mem _ h1, h2⟩

theorem simplifyBranches_count (t : ℚ) (u : Bool) :
    ∀ arcs : List SimplArc,
      (SimplifyBranches t u arcs).1 + (SimplifyBranches t u arcs).2.length
        = arcs.length := by
  intro arcs
  induction arcs with
  | nil => rfl
  | cons x rest ih =>
    rw [SimplifyBranches]
    split_ifs with hx <;> simp [List.length_cons] <;> omega

theorem simplifyLoops_count (t : ℚ) (u : Bool) :
    ∀ arcs : List SimplArc,
      (SimplifyLoops t u arcs).1 + (SimplifyLoops t u arcs).2.length
        = arcs.length := by
  intro arcs
  induction arcs with
  | nil => rfl
  | cons x rest ih =>
    rw [SimplifyLoops]
    split_ifs with hx <;> simp [List.length_cons] <;> omega

/-- Claim C5: after Simplify(t, metric) returns, no surviving arc — branch
or loop — has persistence at or below the threshold, and the returned count
is the number of removed arcs (removed plus surviving equals the original
count). -/
theorem c5_simplify_postcondition (t : ℚ) (useMetric : Bool) (arcs : List SimplArc) :
    (∀ a ∈ (Simplify t useMetric arcs).2,
      ¬ arcSimplificationValue useMetric a ≤ t) ∧
    (Simplify t useMetric arcs).1 + (Simplify t useMetric arcs).2.length
      = arcs.length := by
  constructor
  · intro a ha
    have hl := simplifyLoops_mem t useMetric (SimplifyBranches t useMetric arcs).2 a ha
    have hb := simplifyBranches_mem t useMetric arcs a hl.1
    cases hcase : a.isLoop with
    | false => exact hb.2 hcase
    | true => exact hl.2 hcase
  · have h1 := simplifyBranches_count t useMetric arcs
    have h2 := simplifyLoops_count t useMetric (SimplifyBranches t useMetric arcs).2
    have hS : Simplify t useMetric arcs =
        ((SimplifyBranches t useMetric arcs).1
            + (SimplifyLoops t useMetric (SimplifyBranches t useMetric arcs).2).1,
          (SimplifyLoops t useMetric (SimplifyBranches t useMetric arcs).2).2) := rfl
    rw [hS]
    dsimp only
    omega

/-- Claim C5, witness: on a concrete mix of one low-persistence branch arc,
one low-persistence loop arc and one high-persistence branch arc with
threshold 3, the surviving arc has persistence above the threshold and the
count identity holds. -/
theorem c5_witness :
    { isLoop := false, defaultPersistence := 5, metricValue := 0 } ∈
      (Simplify 3 false
        [{ isLoop := false, defaultPersistence := 1, metricValue := 0 },
         { isLoop := true, defaultPersistence := 2, metricValue := 0 },
         { isLoop := false, defaultPersistence := 5, metricValue := 0 }]).2 ∧
    ¬ arcSimplificationValue false
        { isLoop := false, defaultPersistence := 5, metricValue := 0 } ≤ 3 ∧
    (Simplify 3 false
        [{ isLoop := false, defaultPersistence := 1, metricValue := 0 },
         { isLoop := true, defaultPersistence := 2, metricValue := 0 },
         { isLoop := false, defaultPersistence := 5, metricValue := 0 }]).1 +
      (Simplify 3 false
        [{ isLoop := false, defaultPersistence := 1, metricValue := 0 },
         { isLoop := true, defaultPersistence := 2, metricValue := 0 },
         { isLoop := false, defaultPersistence := 5, metricValue := 0 }]).2.length
      = 3 :=
  ⟨by decide,
   (c5_simplify_postcondition 3 false
      [{ isLoop := false, defaultPersistence := 1, metricValue := 0 },
       { isLoop := true, defaultPersistence := 2, metricValue := 0 },
       { isLoop := false, defaultPersistence := 5, metricValue := 0 }]).1
     { isLoop := false, defaultPersistence := 5, metricValue := 0 } (by decide),
   (c5_simplify_postcondition 3 false
      [{ isLoop := false, defaultPersistence := 1, metricValue := 0 },
       { isLoop := true, defaultPersistence := 2, metricValue := 0 },
       { isLoop := false, defaultPersistence := 5, metricValue := 0 }]).2⟩

/-! ## Streaming idempotence (claim C7) -/

/-- Modelled from the spec: a mesh vertex as the streaming builder sees it,
a (vertex id, scalar value) pair. -/
abbrev MVert := Int × ℚ

/-- Modelled from the spec: the streaming total order on vertices —
smaller scalar first, ties broken by smaller vertex id. -/
def specLessV (a b : MVert) : Prop :=
  a.2 < b.2 ∨ (a.2 = b.2 ∧ a.1 < b.1)

instance (a b : MVert) : Decidable (specLessV a b) := by
  unfold specLessV; infer_instance

/-- Modelled from the spec: add_path creates the arc between a consecutive
pair respecting the order (swapping the pair when needed). -/
def orderPairV (a b : MVert) : MVert × MVert :=
  if specLessV a b then (a, b) else (b, a)

/-- Modelled from the spec: the observable graph state of the streaming
builder — the set of touched vertices (nodes), the set of arcs (ordered
endpoint pairs), and the set of (arc, tag) labels.  Pool ids and link
fields are representation detail below this abstraction. -/
structure StreamState where
  nodes : Finset MVert
  arcs : Finset (MVert × MVert)
  labels : Finset ((MVert × MVert) × Nat)

theorem streamStateExt (s t : StreamState) (h1 : s.nodes = t.nodes)
    (h2 : s.arcs = t.arcs) (h3 : s.labels = t.labels) : s = t := by
  cases s; cases t; simp_all

/-- Modelled from the spec: AddPath (whose body is not under src) walks the
node sequence, lazily creating any missing arc between consecutive pairs
(respecting the order by swapping the pair) and installing a label with the
given tag on each arc; by invariant 4 of the spec each (arc, tag) pair has
at most one label, so installation is insertion into a set. -/
def AddPath (τ : Nat) : List MVert → StreamState → StreamState
  | a :: b :: rest, s =>
      AddPath τ (b :: rest)
        { s with arcs := insert (orderPairV a b) s.arcs,
                 labels := insert (orderPairV a b, τ) s.labels }
  | _, s => s

/-- The arcs of a node sequence. -/
def pathArcs : List MVert → Finset (MVert × MVert)
  | a :: b :: rest => insert (orderPairV a b) (pathArcs (b :: rest))
  | _ => ∅

/-- The (arc, tag) labels of a node sequence. -/
def pathLabels (τ : Nat) : List MVert → Finset ((MVert × MVert) × Nat)
  | a :: b :: rest => insert (orderPairV a b, τ) (pathLabels τ (b :: rest))
  | _ => ∅

theorem addPath_nodes (τ : Nat) :
    ∀ (l : List MVert) (s : StreamState), (AddPath τ l s).nodes = s.nodes := by
  intro l
  induction l with
  | nil => intro s; rfl
  | cons a rest ih =>
    intro s
    cases rest with
    | nil => rfl
    | cons b rest2 => exact ih _

theorem addPath_arcs (τ : Nat) :
    ∀ (l : List MVert) (s : StreamState),
      (AddPath τ l s).arcs = s.arcs ∪ pathArcs l := by
  intro l
  induction l with
  | nil => intro s; simp [AddPath, pathArcs]
  | cons a rest ih =>
    intro s
    cases rest with
    | nil => simp [AddPath, pathArcs]
    | cons b rest2 =>
      have hstep : AddPath τ (a :: b :: rest2) s
          = AddPath τ (b :: rest2)
              { s with arcs := insert (orderPairV a b) s.arcs,
                       labels := insert (orderPairV a b, τ) s.labels } := rfl
      rw [hstep, ih]
      show insert (orderPairV a b) s.arcs ∪ pathArcs (b :: rest2)
        = s.arcs ∪ pathArcs (a :: b :: rest2)
      rw [Finset.insert_union, ← Finset.union_insert]
      rfl

theorem addPath_labels (τ : Nat) :
    ∀ (l : List MVert) (s : StreamState),
      (AddPath τ l s).labels = s.labels ∪ pathLabels τ l := by
  intro l
  induction l with
  | nil => intro s; simp [AddPath, pathLabels]
  | cons a rest ih =>
    intro s
    cases rest with
    | nil => simp [AddPath, pathLabels]
    | cons b rest2 =>
      have hstep : AddPath τ (a :: b :: rest2) s
          = AddPath τ (b :: rest2)
              { s with arcs := insert (orderPairV a b) s.arcs,
                       labels := insert (orderPairV a b, τ) s.labels } := rfl
      rw [hstep, ih]
      show insert (orderPairV a b, τ) s.labels ∪ pathLabels τ (b :: rest2)
        = s.labels ∪ pathLabels τ (a :: b :: rest2)
      rw [Finset.insert_union, ← Finset.union_insert]
      rfl

/-- Modelled from the spec: touching the three vertices of a streamed
triangle registers them as nodes. -/
def Touch3 (v0 v1 v2 : MVert) (s : StreamState) : StreamState :=
  { s with nodes := insert v0 (insert v1 (insert v2 s.nodes)) }

/-- Modelled from the spec: sort the three vertices of a triangle by the
streaming order. -/
def sort3 (a b c : MVert) : MVert × MVert × MVert :=
  if specLessV a b then
    if specLessV b c then (a, b, c)
    else if specLessV a c then (a, c, b)
    else (c, a, b)
  else
    if specLessV a c then (b, a, c)
    else if specLessV b c then (b, c, a)
    else (c, b, a)

/-- The arc-set effect of streaming one sorted triangle L < M < U: AddPath
inserts the arcs of the two monotonic paths [L, M, U] and [L, U], and the
Collapse zip then merges the two paths into the single path [L, M, U],
removing the direct arc between L and U. -/
def coreArcs (L M U : MVert) (X : Finset (MVert × MVert)) : Finset (MVert × MVert) :=
  insert (orderPairV L M) (insert (orderPairV M U)
    (((X ∪ pathArcs [L, M, U]) ∪ pathArcs [L, U]).erase (orderPairV L U)))

/-- The label-set effect of streaming one sorted triangle. -/
def coreLabels (τA τB : Nat) (L M U : MVert)
    (Y : Finset ((MVert × MVert) × Nat)) : Finset ((MVert × MVert) × Nat) :=
  (Y ∪ pathLabels τA [L, M, U]) ∪ pathLabels τB [L, U]

/-- Modelled from the spec: streaming one triangle whose vertices are
already sorted L < M < U — AddPath(path_A = [L, M, U], tag A),
AddPath(path_B = [L, U], tag B), then Collapse(L, U, tag A, tag B), which
zips the two monotonic paths into the single path [L, M, U] (the direct
L-U arc is merged away, as in the single-triangle scenario of the spec). -/
def StreamTriangleCore (τA τB : Nat) (L M U : MVert) (s : StreamState) : StreamState :=
  let s1 := AddPath τA [L, M, U] s
  let s2 := AddPath τB [L, U] s1
  { s2 with arcs := insert (orderPairV L M) (insert (orderPairV M U)
      (s2.arcs.erase (orderPairV L U))) }

theorem streamTriangleCore_nodes (τA τB : Nat) (L M U : MVert) (s : StreamState) :
    (StreamTriangleCore τA τB L M U s).nodes = s.nodes := by
  show (AddPath τB [L, U] (AddPath τA [L, M, U] s)).nodes = s.nodes
  rw [addPath_nodes, addPath_nodes]

theorem streamTriangleCore_arcs (τA τB : Nat) (L M U : MVert) (s : StreamState) :
    (StreamTriangleCore τA τB L M U s).arcs = coreArcs L M U s.arcs := by
  show insert (orderPairV L M) (insert (orderPairV M U)
      ((AddPath τB [L, U] (AddPath τA [L, M, U] s)).arcs.erase (orderPairV L U)))
    = coreArcs L M U s.arcs
  rw [addPath_arcs, addPath_arcs]
  rfl

theorem streamTriangleCore_labels (τA τB : Nat) (L M U : MVert) (s : StreamState) :
    (StreamTriangleCore τA τB L M U s).labels = coreLabels τA τB L M U s.labels := by
  show (AddPath τB [L, U] (AddPath τA [L, M, U] s)).labels
    = coreLabels τA τB L M U s.labels
  rw [addPath_labels, addPath_labels]
  rfl

/-- Modelled from the spec: StreamTriangle — touch the three vertices, sort
them by the streaming order, then insert the two monotonic paths and zip
them. -/
def StreamTriangle (τA τB : Nat) (v0 v1 v2 : MVert) (s : StreamState) : StreamState :=
  let s0 := Touch3 v0 v1 v2 s
  let t := sort3 v0 v1 v2
  StreamTriangleCore τA τB t.1 t.2.1 t.2.2 s0

theorem coreArcs_idem (L M U : MVert) (X : Finset (MVert × MVert)) :
    coreArcs L M U (coreArcs L M U X) = coreArcs L M U X := by
  ext x
  simp only [coreArcs, pathArcs, Finset.mem_insert, Finset.mem_erase,
    Finset.mem_union, Finset.not_mem_empty, or_false]
  tauto

theorem coreLabels_idem (τA τB : Nat) (L M U : MVert)
    (Y : Finset ((MVert × MVert) × Nat)) :
    coreLabels τA τB L M U (coreLabels τA τB L M U Y) = coreLabels τA τB L M U Y := by
  ext x
  simp only [coreLabels, pathLabels, Finset.mem_insert, Finset.mem_union,
    Finset.not_mem_empty, or_false]
  tauto

theorem insert3_idem (v0 v1 v2 : MVert) (X : Finset MVert) :
    insert v0 (insert v1 (insert v2 (insert v0 (insert v1 (insert v2 X)))))
      = insert v0 (insert v1 (insert v2 X)) := by
  ext x
  simp only [Finset.mem_insert]
  tauto

/-- Streaming the same triangle twice leaves the state unchanged. -/
theorem streamTriangle_idem (τA τB : Nat) (v0 v1 v2 : MVert) (s : StreamState) :
    StreamTriangle τA τB v0 v1 v2 (StreamTriangle τA τB v0 v1 v2 s)
      = StreamTriangle τA τB v0 v1 v2 s := by
  apply streamStateExt
  · show (StreamTriangleCore τA τB _ _ _ (Touch3 v0 v1 v2
        (StreamTriangle τA τB v0 v1 v2 s))).nodes = _
    rw [streamTriangleCore_nodes]
    show insert v0 (insert v1 (insert v2 (StreamTriangle τA τB v0 v1 v2 s).nodes)) = _
    have h1 : (StreamTriangle τA τB v0 v1 v2 s).nodes
        = insert v0 (insert v1 (insert v2 s.nodes)) := by
      show (StreamTriangleCore τA τB _ _ _ (Touch3 v0 v1 v2 s)).nodes = _
      rw [streamTriangleCore_nodes]
      rfl
    rw [h1, insert3_idem]
  · show (StreamTriangleCore τA τB _ _ _ (Touch3 v0 v1 v2
        (StreamTriangle τA τB v0 v1 v2 s))).arcs = _
    rw [streamTriangleCore_arcs]
    show coreArcs _ _ _ (StreamTriangle τA τB v0 v1 v2 s).arcs = _
    have h1 : (StreamTriangle τA τB v0 v1 v2 s).arcs
        = coreArcs (sort3 v0 v1 v2).1 (sort3 v0 v1 v2).2.1 (sort3 v0 v1 v2).2.2
            s.arcs := by
      show (StreamTriangleCore τA τB _ _ _ (Touch3 v0 v1 v2 s)).arcs = _
      rw [streamTriangleCore_arcs]
      rfl
    rw [h1, coreArcs_idem]
  · show (StreamTriangleCore τA τB _ _ _ (Touch3 v0 v1 v2
        (StreamTriangle τA τB v0 v1 v2 s))).labels = _
    rw [streamTriangleCore_labels]
    show coreLabels τA τB _ _ _ (StreamTriangle τA τB v0 v1 v2 s).labels = _
    have h1 : (StreamTriangle τA τB v0 v1 v2 s).labels
        = coreLabels τA τB (sort3 v0 v1 v2).1 (sort3 v0 v1 v2).2.1
            (sort3 v0 v1 v2).2.2 s.labels := by
      show (StreamTriangleCore τA τB _ _ _ (Touch3 v0 v1 v2 s)).labels = _
      rw [streamTriangleCore_labels]
      rfl
    rw [h1, coreLabels_idem]

/-- Modelled from the spec: touching the four vertices of a streamed
tetrahedron registers them as nodes. -/
def Touch4 (v0 v1 v2 v3 : MVert) (s : StreamState) : StreamState :=
  { s with nodes := insert v0 (insert v1 (insert v2 (insert v3 s.nodes))) }

/-- Modelled from the spec: sort the four vertices of a tetrahedron by the
streaming order. -/
def sort4 (a b c d : MVert) : MVert × MVert × MVert × MVert :=
  let t := sort3 a b c
  if specLessV d t.1 then (d, t.1, t.2.1, t.2.2)
  else if specLessV d t.2.1 then (t.1, d, t.2.1, t.2.2)
  else if specLessV d t.2.2 then (t.1, t.2.1, d, t.2.2)
  else (t.1, t.2.1, t.2.2, d)

/-- Modelled from the spec: StreamTetrahedron — touch the four vertices,
sort them as L < M1 < M2 < U, then stream the four triangular faces in a
fixed deterministic order (the spec leaves the face order free), with tags
drawn per face from the tag assignment. -/
def StreamTetrahedron (τ : Nat → Nat) (v0 v1 v2 v3 : MVert) (s : StreamState) :
    StreamState :=
  StreamTriangleCore (τ 6) (τ 7) (sort4 v0 v1 v2 v3).2.1 (sort4 v0 v1 v2 v3).2.2.1
    (sort4 v0 v1 v2 v3).2.2.2
    (StreamTriangleCore (τ 4) (τ 5) (sort4 v0 v1 v2 v3).1 (sort4 v0 v1 v2 v3).2.2.1
      (sort4 v0 v1 v2 v3).2.2.2
      (StreamTriangleCore (τ 2) (τ 3) (sort4 v0 v1 v2 v3).1 (sort4 v0 v1 v2 v3).2.1
        (sort4 v0 v1 v2 v3).2.2.2
        (StreamTriangleCore (τ 0) (τ 1) (sort4 v0 v1 v2 v3).1 (sort4 v0 v1 v2 v3).2.1
          (sort4 v0 v1 v2 v3).2.2.1
          (Touch4 v0 v1 v2 v3 s))))

/-- The arc-set effect of streaming the four faces of a sorted
tetrahedron. -/
def tetArcs (L M1 M2 U : MVert) (X : Finset (MVert × MVert)) :
    Finset (MVert × MVert) :=
  coreArcs M1 M2 U (coreArcs L M2 U (coreArcs L M1 U (coreArcs L M1 M2 X)))

set_option maxHeartbeats 2000000 in
theorem tetArcs_idem (L M1 M2 U : MVert) (X : Finset (MVert × MVert)) :
    tetArcs L M1 M2 U (tetArcs L M1 M2 U X) = tetArcs L M1 M2 U X := by
  ext x
  simp only [tetArcs, coreArcs, pathArcs, Finset.mem_insert, Finset.mem_erase,
    Finset.mem_union, Finset.not_mem_empty, or_false]
  tauto

/-- The label-set effect of streaming the four faces of a sorted
tetrahedron. -/
def tetLabels (τ : Nat → Nat) (L M1 M2 U : MVert)
    (Y : Finset ((MVert × MVert) × Nat)) : Finset ((MVert × MVert) × Nat) :=
  coreLabels (τ 6) (τ 7) M1 M2 U (coreLabels (τ 4) (τ 5) L M2 U
    (coreLabels (τ 2) (τ 3) L M1 U (coreLabels (τ 0) (τ 1) L M1 M2 Y)))

theorem tetLabels_idem (τ : Nat → Nat) (L M1 M2 U : MVert)
    (Y : Finset ((MVert × MVert) × Nat)) :
    tetLabels τ L M1 M2 U (tetLabels τ L M1 M2 U Y) = tetLabels τ L M1 M2 U Y := by
  ext x
  simp only [tetLabels, coreLabels, pathLabels, Finset.mem_insert,
    Finset.mem_union, Finset.not_mem_empty, or_false]
  tauto

theorem insert4_idem (v0 v1 v2 v3 : MVert) (X : Finset MVert) :
    insert v0 (insert v1 (insert v2 (insert v3
        (insert v0 (insert v1 (insert v2 (insert v3 X)))))))
      = insert v0 (insert v1 (insert v2 (insert v3 X))) := by
  ext x
  simp only [Finset.mem_insert]
  tauto

theorem streamTetrahedron_nodes (τ : Nat → Nat) (v0 v1 v2 v3 : MVert)
    (s : StreamState) :
    (StreamTetrahedron τ v0 v1 v2 v3 s).nodes
      = insert v0 (insert v1 (insert v2 (insert v3 s.nodes))) := by
  unfold StreamTetrahedron
  rw [streamTriangleCore_nodes, streamTriangleCore_nodes,
    streamTriangleCore_nodes, streamTriangleCore_nodes]
  rfl

theorem streamTetrahedron_arcs (τ : Nat → Nat) (v0 v1 v2 v3 : MVert)
    (s : StreamState) :
    (StreamTetrahedron τ v0 v1 v2 v3 s).arcs
      = tetArcs (sort4 v0 v1 v2 v3).1 (sort4 v0 v1 v2 v3).2.1
          (sort4 v0 v1 v2 v3).2.2.1 (sort4 v0 v1 v2 v3).2.2.2 s.arcs := by
  unfold StreamTetrahedron
  rw [streamTriangleCore_arcs, streamTriangleCore_arcs,
    streamTriangleCore_arcs, streamTriangleCore_arcs]
  rfl

theorem streamTetrahedron_labels (τ : Nat → Nat) (v0 v1 v2 v3 : MVert)
    (s : StreamState) :
    (StreamTetrahedron τ v0 v1 v2 v3 s).labels
      = tetLabels τ (sort4 v0 v1 v2 v3).1 (sort4 v0 v1 v2 v3).2.1
          (sort4 v0 v1 v2 v3).2.2.1 (sort4 v0 v1 v2 v3).2.2.2 s.labels := by
  unfold StreamTetrahedron
  rw [streamTriangleCore_labels, streamTriangleCore_labels,
    streamTriangleCore_labels, streamTriangleCore_labels]
  rfl

/-- Streaming the same tetrahedron twice leaves the state unchanged. -/
theorem streamTetrahedron_idem (τ : Nat → Nat) (v0 v1 v2 v3 : MVert)
    (s : StreamState) :
    StreamTetrahedron τ v0 v1 v2 v3 (StreamTetrahedron τ v0 v1 v2 v3 s)
      = StreamTetrahedron τ v0 v1 v2 v3 s := by
  apply streamStateExt
  · rw [streamTetrahedron_nodes, streamTetrahedron_nodes, insert4_idem]
  · rw [streamTetrahedron_arcs, streamTetrahedron_arcs, tetArcs_idem]
  · rw [streamTetrahedron_labels, streamTetrahedron_labels, tetLabels_idem]

/-- Claim C7: streaming the same simplex a second time — the same vertex
ids and scalars through StreamTriangle or StreamTetrahedron, with the same
tags — leaves the graph state unchanged, and AddPath re-issued with the
same node sequence and the same tag is idempotent. -/
theorem c7_stream_idempotence :
    (∀ (τ : Nat) (l : List MVert) (s : StreamState),
      AddPath τ l (AddPath τ l s) = AddPath τ l s) ∧
    (∀ (τA τB : Nat) (v0 v1 v2 : MVert) (s : StreamState),
      StreamTriangle τA τB v0 v1 v2 (StreamTriangle τA τB v0 v1 v2 s)
        = StreamTriangle τA τB v0 v1 v2 s) ∧
    (∀ (τ : Nat → Nat) (v0 v1 v2 v3 : MVert) (s : StreamState),
      StreamTetrahedron τ v0 v1 v2 v3 (StreamTetrahedron τ v0 v1 v2 v3 s)
        = StreamTetrahedron τ v0 v1 v2 v3 s) := by
  refine ⟨?_, streamTriangle_idem, streamTetrahedron_idem⟩
  intro τ l s
  apply streamStateExt
  · rw [addPath_nodes, addPath_nodes]
  · rw [addPath_arcs, addPath_arcs, Finset.union_assoc, Finset.union_self]
  · rw [addPath_labels, addPath_labels, Finset.union_assoc, Finset.union_self]

end VTKReebGraph
